import Mathlib

/-!
# The AI request pipeline of webook

A shallow embedding of `internal/ai/handlers.go` and `internal/ai/wire_gen.go`.

The wiring functions (`InitCommonHandlers`, `InitQuestionExamineHandler`,
`InitHandlerFacade`, `InitModule`) are translated from the source.  The handler
packages they import (`handler`, `biz`, `config`, `credit`, `log`, `record`,
`zhipu`, `repository`, `dao`, `llm`) are not part of the available sources; each
definition standing for one of them says so in its doc comment and follows the
written specification.

Effects are made explicit: a handler is a function from a request and the trace of
collaborator calls made so far to a result and the extended trace.
-/

set_option autoImplicit false

namespace Webook

/-! ## Data model -/

namespace domain

/-- Tier of an examine outcome, `type CaseResult uint8` of `domain/examine.go`. -/
abbrev CaseResult := Fin 256

/-- Constant `ResultFailed` (iota = 0). -/
def ResultFailed : CaseResult := 0
/-- Constant `ResultBasic` (iota = 1). -/
def ResultBasic : CaseResult := 1
/-- Constant `ResultIntermediate` (iota = 2). -/
def ResultIntermediate : CaseResult := 2
/-- Constant `ResultAdvanced` (iota = 3). -/
def ResultAdvanced : CaseResult := 3

/-- Method `func (r CaseResult) ToUint8() uint8`. -/
def CaseResult.ToUint8 (r : CaseResult) : Fin 256 := r

/-- Modelled from the spec: the runtime parameters kept per business key by the
configuration repository (model selection and price-per-token override); the
declaring package is missing. -/
structure Config where
  model : String
  price : Option Nat
  deriving DecidableEq, Repr

/-- Modelled from the spec: the Request of the pipeline (business key, input
payload, caller identity, correlation id) together with its provider-facing
fields, which the configuration handler fills in; the declaring package is
missing. -/
structure Request where
  biz : String
  input : String
  uid : Nat
  cid : Nat
  prompt : String
  config : Option Config
  deriving DecidableEq, Repr

/-- Modelled from the spec: the generated or derived output of a Response.  The
provider adapter produces `text`; the examine business handler derives a tier from
it and keeps the raw text. -/
inductive Output where
  | text (raw : String)
  | examined (tier : CaseResult) (raw : String)
  deriving DecidableEq, Repr

/-- Raw provider text of an output. -/
def Output.raw : Output → String
  | .text s => s
  | .examined _ s => s

/-- Modelled from the spec: the Response of the pipeline (output, tokens consumed,
amount charged in the smallest currency unit, provider trace id); the declaring
package is missing. -/
structure Response where
  output : Output
  tokens : Nat
  amount : Nat
  tid : String
  deriving DecidableEq, Repr

/-- Modelled from the spec: a Usage Record (user id, business key, tokens, amount,
raw provider output, correlation id); timestamps are not represented. -/
structure UsageRecord where
  uid : Nat
  biz : String
  tokens : Nat
  amount : Nat
  raw : String
  cid : Nat
  deriving DecidableEq, Repr

/-- Modelled from the spec: the error taxonomy of section 7.  `ProviderError`
carries the detail reported by the backend. -/
inductive Error where
  | ConfigNotFound
  | UnknownBusinessKey
  | ProviderError (detail : String)
  | CreditDebitFailed
  | RecordingFailed
  | Canceled
  | DeadlineExceeded
  deriving DecidableEq, Repr

/-- One observable step of a `Handle` call: a call to an external collaborator
together with its outcome, or the entry of the business handler. -/
inductive Event where
  | observe (biz : String) (ok : Bool)
  | getConfig (biz : String) (found : Bool)
  | debit (uid : Nat) (amount : Nat) (cid : Nat) (ok : Bool)
  | append (r : UsageRecord) (ok : Bool)
  | examine (cid : Nat)
  | provider (req : Request) (ok : Bool)
  deriving DecidableEq, Repr

/-- Trace of the steps performed so far, oldest first. -/
abbrev World := List Event

/-- Debits that were performed (the ledger accepted them), oldest first, each as
(user id, amount, correlation id). -/
def debited (w : World) : List (Nat × Nat × Nat) :=
  w.filterMap fun e =>
    match e with
    | Event.debit u a c true => some (u, a, c)
    | _ => none

/-- Debit calls made on the credit service, accepted or not. -/
def debitCalls (w : World) : List (Nat × Nat × Nat) :=
  w.filterMap fun e =>
    match e with
    | Event.debit u a c _ => some (u, a, c)
    | _ => none

/-- Usage records that were persisted (the Append succeeded), oldest first. -/
def appended (w : World) : List UsageRecord :=
  w.filterMap fun e =>
    match e with
    | Event.append r true => some r
    | _ => none

/-- Append calls made on the usage log, successful or not. -/
def appendCalls (w : World) : List UsageRecord :=
  w.filterMap fun e =>
    match e with
    | Event.append r _ => some r
    | _ => none

/-- Requests sent to the external model backend. -/
def providerCalls (w : World) : List Request :=
  w.filterMap fun e =>
    match e with
    | Event.provider r _ => some r
    | _ => none

/-- Correlation ids with which the business handler was entered. -/
def examineCalls (w : World) : List Nat :=
  w.filterMap fun e =>
    match e with
    | Event.examine c => some c
    | _ => none

end domain

open domain

/-! ## Handler chain primitives -/

namespace handler

/-- Outcome of `Handle`: a response or an error. -/
abbrev Result := Except Error Response

/-- Equality of outcomes is decidable. -/
instance : DecidableEq Result := fun a b =>
  match a, b with
  | Except.ok x, Except.ok y =>
    if h : x = y then isTrue (by rw [h]) else isFalse (fun h2 => h (Except.ok.inj h2))
  | Except.error x, Except.error y =>
    if h : x = y then isTrue (by rw [h]) else isFalse (fun h2 => h (Except.error.inj h2))
  | Except.ok _, Except.error _ => isFalse (fun h2 => Except.noConfusion h2)
  | Except.error _, Except.ok _ => isFalse (fun h2 => Except.noConfusion h2)

/-- Modelled from the spec: capability `Handler` of the missing package `handler`,
with `Handle(ctx, Request) -> (Response, error)` and `Biz() -> string`. -/
structure Handler where
  Handle : Request → World → Result × World
  Biz : String

/-- Modelled from the spec: capability `Builder` of the missing package `handler`,
with `Next(Handler) -> Handler`. -/
structure Builder where
  Next : Handler → Handler

end handler

open handler

/-! ## External collaborators -/

namespace gorm

/-- The database handle `*gorm.DB`, as far as the pipeline uses it: the rows of the
configuration table by business key, and the outcome of inserting a usage record
(`true` when the insert succeeds) given what has happened so far. -/
structure DB where
  configs : String → Option Config
  insertLog : World → UsageRecord → Bool

end gorm

namespace dao

/-- Modelled from the spec: configuration table access of the missing package
`dao`. -/
structure ConfigDAO where
  get : String → Option Config

/-- Modelled from the spec: constructor `dao.NewGORMConfigDAO`. -/
def NewGORMConfigDAO (db : gorm.DB) : ConfigDAO := ⟨db.configs⟩

/-- Modelled from the spec: usage log table access of the missing package `dao`. -/
structure LLMRecordDAO where
  insert : World → UsageRecord → Bool

/-- Modelled from the spec: constructor `dao.NewGORMLLMLogDAO`. -/
def NewGORMLLMLogDAO (db : gorm.DB) : LLMRecordDAO := ⟨db.insertLog⟩

/-- Modelled from the spec: credit log table access of the missing package `dao`;
the specification gives it no operation. -/
structure LLMCreditDAO where
  db : gorm.DB

/-- Modelled from the spec: constructor `dao.NewLLMCreditLogDAO`. -/
def NewLLMCreditLogDAO (db : gorm.DB) : LLMCreditDAO := ⟨db⟩

end dao

namespace repository

/-- Modelled from the spec: Configuration repository,
`GetConfig(ctx, businessKey) -> (Config, error)`; `none` is "no configuration found". -/
structure ConfigRepository where
  GetConfig : String → Option Config

/-- Modelled from the spec: constructor `repository.NewCachedConfigRepository`; the
cache is transparent. -/
def NewCachedConfigRepository (d : dao.ConfigDAO) : ConfigRepository := ⟨d.get⟩

/-- Modelled from the spec: Usage log repository, `Append(ctx, UsageRecord) -> error`;
`true` is a nil error. -/
structure LLMLogRepo where
  Append : World → UsageRecord → Bool

/-- Modelled from the spec: constructor `repository.NewLLMLogRepo`. -/
def NewLLMLogRepo (d : dao.LLMRecordDAO) : LLMLogRepo := ⟨d.insert⟩

/-- Modelled from the spec: credit log repository of the missing package
`repository`; the specification gives it no operation. -/
structure LLMCreditLogRepo where
  dao : dao.LLMCreditDAO

/-- Modelled from the spec: constructor `repository.NewLLMCreditLogRepo`. -/
def NewLLMCreditLogRepo (d : dao.LLMCreditDAO) : LLMCreditLogRepo := ⟨d⟩

end repository

namespace credit

/-- Modelled from the spec: Credit service,
`Debit(ctx, userID, amount, correlationID) -> error`; `true` is a nil error.  The
outcome may depend on what has happened so far (balance, availability). -/
structure Service where
  Debit : World → Nat → Nat → Nat → Bool

/-- The credit module `*credit.Module` handed to `InitModule`; only its field `Svc`
is used. -/
structure Module where
  Svc : Service

end credit

/-! ## Cross-cutting handlers -/

namespace log

/-- Modelled from the spec: `log.HandlerBuilder`, the observability builder of the
missing package `log`. -/
structure HandlerBuilder where
  mk ::

/-- Modelled from the spec: constructor `log.NewHandler`. -/
def NewHandler : HandlerBuilder := HandlerBuilder.mk

/-- Modelled from the spec: section 4.2.  Calls the next handler once with the
request as received, records the outcome and returns what the next handler
returned.  Start time and duration are not represented. -/
def HandlerBuilder.Next (_b : HandlerBuilder) (next : Handler) : Handler where
  Biz := next.Biz
  Handle := fun req w =>
    let out := next.Handle req w
    (out.1, out.2 ++ [Event.observe req.biz out.1.isOk])

/-- The builder as a value of the interface `handler.Builder`. -/
def HandlerBuilder.toBuilder (b : HandlerBuilder) : Builder := ⟨b.Next⟩

end log

namespace config

/-- Modelled from the spec: `config.HandlerBuilder` of the missing package
`config`. -/
structure HandlerBuilder where
  repo : repository.ConfigRepository

/-- Modelled from the spec: constructor `config.NewBuilder`. -/
def NewBuilder (repo : repository.ConfigRepository) : HandlerBuilder := ⟨repo⟩

/-- Modelled from the spec: section 4.3.  Loads the configuration of the business
key; without one it fails closed with `ConfigNotFound`; with one it injects it into
the request and delegates. -/
def HandlerBuilder.Next (b : HandlerBuilder) (next : Handler) : Handler where
  Biz := next.Biz
  Handle := fun req w =>
    match b.repo.GetConfig req.biz with
    | none => (Except.error Error.ConfigNotFound, w ++ [Event.getConfig req.biz false])
    | some c => next.Handle { req with config := some c } (w ++ [Event.getConfig req.biz true])

/-- The builder as a value of the interface `handler.Builder`. -/
def HandlerBuilder.toBuilder (b : HandlerBuilder) : Builder := ⟨b.Next⟩

end config

namespace credit

/-- Modelled from the spec: `credit.HandlerBuilder` of the missing package
`handler/credit` (imported as `credit2` in `wire_gen.go`). -/
structure HandlerBuilder where
  svc : Service
  logRepo : repository.LLMCreditLogRepo

/-- Modelled from the spec: constructor `credit2.NewHandlerBuilder`. -/
def NewHandlerBuilder (svc : Service) (logRepo : repository.LLMCreditLogRepo) :
    HandlerBuilder := ⟨svc, logRepo⟩

/-- Modelled from the spec: section 4.4.  Delegates first; when delegation fails the
error is returned as is and no debit is attempted; on success one debit of the
amount of the response is made for the caller under the correlation id of the
request; a failing debit gives `CreditDebitFailed`. -/
def HandlerBuilder.Next (b : HandlerBuilder) (next : Handler) : Handler where
  Biz := next.Biz
  Handle := fun req w =>
    match next.Handle req w with
    | (Except.error e, w1) => (Except.error e, w1)
    | (Except.ok resp, w1) =>
      if b.svc.Debit w1 req.uid resp.amount req.cid then
        (Except.ok resp, w1 ++ [Event.debit req.uid resp.amount req.cid true])
      else
        (Except.error Error.CreditDebitFailed,
          w1 ++ [Event.debit req.uid resp.amount req.cid false])

/-- The builder as a value of the interface `handler.Builder`. -/
def HandlerBuilder.toBuilder (b : HandlerBuilder) : Builder := ⟨b.Next⟩

end credit

namespace record

/-- Modelled from the spec: `record.HandlerBuilder` of the missing package
`record`. -/
structure HandlerBuilder where
  repo : repository.LLMLogRepo

/-- Modelled from the spec: constructor `record.NewHandler`. -/
def NewHandler (repo : repository.LLMLogRepo) : HandlerBuilder := ⟨repo⟩

/-- The usage record written for a request and the response it obtained. -/
def usageOf (req : Request) (resp : Response) : UsageRecord where
  uid := req.uid
  biz := req.biz
  tokens := resp.tokens
  amount := resp.amount
  raw := resp.output.raw
  cid := req.cid

/-- Modelled from the spec: section 4.5.  After the wrapped chain succeeds, appends
a usage record; a failing Append is swallowed. -/
def HandlerBuilder.Next (b : HandlerBuilder) (next : Handler) : Handler where
  Biz := next.Biz
  Handle := fun req w =>
    match next.Handle req w with
    | (Except.error e, w1) => (Except.error e, w1)
    | (Except.ok resp, w1) =>
      (Except.ok resp,
        w1 ++ [Event.append (usageOf req resp) (b.repo.Append w1 (usageOf req resp))])

/-- The builder as a value of the interface `handler.Builder`. -/
def HandlerBuilder.toBuilder (b : HandlerBuilder) : Builder := ⟨b.Next⟩

end record

/-! ## Provider adapter -/

namespace zhipu

/-- Modelled from the spec: the provider adapter `zhipu.Handler` of the missing
package `zhipu`.  `backend` stands for the external model backend: given what has
happened so far and the request, a failure detail or the generated text, the token
count and the provider trace id. -/
structure Handler where
  apikey : String
  price : Nat
  backend : World → Request → Except String (String × Nat × String)

/-- Price per token in force for a request: the override injected by the
configuration handler when there is one, the price of the adapter otherwise. -/
def Handler.priceFor (h : Handler) (req : Request) : Nat :=
  match req.config with
  | some c => c.price.getD h.price
  | none => h.price

/-- Modelled from the spec: section 4.8.  One call of the backend, no retry; a
failure gives `ProviderError`; on success `amount = tokens * pricePerToken`. -/
def Handler.Handle (h : Handler) (req : Request) (w : World) : Result × World :=
  match h.backend w req with
  | Except.error d => (Except.error (Error.ProviderError d), w ++ [Event.provider req false])
  | Except.ok (text, tokens, tid) =>
    (Except.ok { output := Output.text text, tokens := tokens,
                 amount := tokens * h.priceFor req, tid := tid },
      w ++ [Event.provider req true])

/-- The adapter as a value of the interface `handler.Handler`. -/
def Handler.toHandler (h : Handler) : handler.Handler where
  Handle := h.Handle
  Biz := "zhipu"

end zhipu

/-! ## Business handler, composition handler and facade -/

namespace biz

/-- The part of the examine business handler that the specification leaves open:
how the prompt is built from the input and how raw model output is mapped to a
tier.  Taken as a parameter. -/
structure ExamineRules where
  prompt : String → String
  classify : String → CaseResult

/-- Modelled from the spec: `biz.QuestionExamineBizHandlerBuilder` of the missing
package `biz`. -/
structure QuestionExamineBizHandlerBuilder where
  rules : ExamineRules

/-- Modelled from the spec: constructor `biz.NewQuestionExamineBizHandlerBuilder`. -/
def NewQuestionExamineBizHandlerBuilder (rules : ExamineRules) :
    QuestionExamineBizHandlerBuilder := ⟨rules⟩

/-- Modelled from the spec: section 4.6.  Invokes the wrapped handler with the
prompt of the use case, maps the raw output to a tier and returns the response with
the token and amount figures as reported. -/
def QuestionExamineBizHandlerBuilder.Next (b : QuestionExamineBizHandlerBuilder)
    (next : handler.Handler) : handler.Handler where
  Biz := next.Biz
  Handle := fun req w =>
    match next.Handle { req with prompt := b.rules.prompt req.input }
        (w ++ [Event.examine req.cid]) with
    | (Except.error e, w1) => (Except.error e, w1)
    | (Except.ok resp, w1) =>
      (Except.ok { resp with
          output := Output.examined (b.rules.classify resp.output.raw) resp.output.raw },
        w1)

/-- The builder as a value of the interface `handler.Builder`. -/
def QuestionExamineBizHandlerBuilder.toBuilder (b : QuestionExamineBizHandlerBuilder) :
    Builder := ⟨b.Next⟩

/-- Modelled from the spec: `biz.CompositionHandler` of the missing package `biz`,
the assembled chain of one business key. -/
structure CompositionHandler where
  root : handler.Handler
  name : String

/-- Modelled from the spec: section 4.7.  Folds the builders right to left over
the terminal handler: starting from the terminal handler, the builders are applied
from the last one to the first one. -/
def NewCombinedBizHandler (name : String) (common : List Builder) (gpt : handler.Handler) :
    CompositionHandler where
  root := common.reverse.foldl (fun root current => current.Next root) gpt
  name := name

/-- Modelled from the spec: `Handle` of the composition handler runs the assembled
chain. -/
def CompositionHandler.Handle (c : CompositionHandler) (req : Request) (w : World) :
    Result × World := c.root.Handle req w

/-- Modelled from the spec: `Biz()` of the composition handler is the business
key. -/
def CompositionHandler.Biz (c : CompositionHandler) : String := c.name

/-- The composition handler as a value of the interface `handler.Handler`. -/
def CompositionHandler.toHandler (c : CompositionHandler) : handler.Handler where
  Handle := c.Handle
  Biz := c.Biz

/-- Modelled from the spec: `biz.FacadeHandler` of the missing package `biz`, a
mapping from business key to assembled handler (`map[string]handler.Handler`, as
its list of entries). -/
structure FacadeHandler where
  handlers : List (String × handler.Handler)

/-- Modelled from the spec: constructor `biz.NewHandler`. -/
def NewHandler (handlers : List (String × handler.Handler)) : FacadeHandler := ⟨handlers⟩

/-- Modelled from the spec: section 4.7.  Looks up the handler by the business key
of the request; fails with `UnknownBusinessKey` when there is none. -/
def FacadeHandler.Handle (f : FacadeHandler) (req : Request) (w : World) : Result × World :=
  match f.handlers.lookup req.biz with
  | none => (Except.error Error.UnknownBusinessKey, w)
  | some h => h.Handle req w

end biz

namespace llm

/-- Modelled from the spec: the service `llm.Service` built over the facade. -/
structure Service where
  facade : biz.FacadeHandler

/-- Modelled from the spec: constructor `llm.NewLLMService`. -/
def NewLLMService (facade : biz.FacadeHandler) : Service := ⟨facade⟩

end llm

/-! ## Package `ai`: `handlers.go` and `wire_gen.go` -/

/-- Function `InitQuestionExamineHandler` of `handlers.go`: appends the business
builder to the common builders and combines them over `gpt` under the key
"question_examine". -/
def InitQuestionExamineHandler (rules : biz.ExamineRules) (common : List Builder)
    (gpt : handler.Handler) : biz.CompositionHandler :=
  let builder := biz.NewQuestionExamineBizHandlerBuilder rules
  let common := common ++ [builder.toBuilder]
  let res := biz.NewCombinedBizHandler "question_examine" common gpt
  res

/-- Function `InitHandlerFacade` of `handlers.go`: a facade whose map has the single
entry `que.Biz() : que`. -/
def InitHandlerFacade (rules : biz.ExamineRules) (common : List Builder)
    (zhipu : zhipu.Handler) : biz.FacadeHandler :=
  let que := InitQuestionExamineHandler rules common zhipu.toHandler
  biz.NewHandler [(que.Biz, que.toHandler)]

/-- Function `InitCommonHandlers` of `handlers.go`. -/
def InitCommonHandlers (log : log.HandlerBuilder) (cfg : config.HandlerBuilder)
    (credit : credit.HandlerBuilder) (record : record.HandlerBuilder) : List Builder :=
  [log.toBuilder, cfg.toBuilder, credit.toBuilder, record.toBuilder]

/-- Struct `Module` of package `ai`. -/
structure Module where
  Svc : llm.Service

/-- Function `InitLLMCreditLogDAO` of `wire_gen.go`; the one-time table creation of
`InitTableOnce` changes no behaviour represented here. -/
def InitLLMCreditLogDAO (db : gorm.DB) : dao.LLMCreditDAO :=
  dao.NewLLMCreditLogDAO db

/-- Function `InitModule` of `wire_gen.go`.  `InitZhipu()` reads the process
configuration; the adapter it returns is the parameter `zhipu`, and `rules` is the
parameter of the business builder.  The returned error is always nil. -/
def InitModule (rules : biz.ExamineRules) (zhipu : zhipu.Handler) (db : gorm.DB)
    (creditSvc : credit.Module) : Module × Option Error :=
  let handlerBuilder := log.NewHandler
  let configDAO := dao.NewGORMConfigDAO db
  let configRepository := repository.NewCachedConfigRepository configDAO
  let configHandlerBuilder := config.NewBuilder configRepository
  let service := creditSvc.Svc
  let llmCreditDAO := InitLLMCreditLogDAO db
  let llmCreditLogRepo := repository.NewLLMCreditLogRepo llmCreditDAO
  let creditHandlerBuilder := credit.NewHandlerBuilder service llmCreditLogRepo
  let llmRecordDAO := dao.NewGORMLLMLogDAO db
  let llmLogRepo := repository.NewLLMLogRepo llmRecordDAO
  let recordHandlerBuilder := record.NewHandler llmLogRepo
  let v := InitCommonHandlers handlerBuilder configHandlerBuilder creditHandlerBuilder
    recordHandlerBuilder
  let handler := zhipu
  let facadeHandler := InitHandlerFacade rules v handler
  let llmService := llm.NewLLMService facadeHandler
  let module := Module.mk llmService
  (module, none)

/-! ## Specification vocabulary -/

open biz

/-- The request that reaches the provider adapter: the configuration found for the
business key is injected and the prompt of the use case is set. -/
def providerRequest (rules : ExamineRules) (cfg : Config) (req : Request) : Request :=
  { req with config := some cfg, prompt := rules.prompt req.input }

/-- The response the business handler returns for a successful backend call. -/
def examinedResponse (rules : ExamineRules) (zh : zhipu.Handler) (preq : Request)
    (text : String) (tokens : Nat) (tid : String) : Response where
  output := Output.examined (rules.classify text) text
  tokens := tokens
  amount := tokens * zh.priceFor preq
  tid := tid

/-- The trace before the backend is called: configuration loaded, business handler
entered. -/
def beforeProvider (req : Request) (w : World) : World :=
  w ++ [Event.getConfig req.biz true, Event.examine req.cid]

/-- The trace once the record handler has run after a successful backend call: the
backend call, then the Append of the usage record with its outcome. -/
def recordedWorld (r : record.HandlerBuilder) (req preq : Request) (resp : Response)
    (w : World) : World :=
  beforeProvider req w ++ [Event.provider preq true,
    Event.append (record.usageOf req resp)
      (r.repo.Append (beforeProvider req w ++ [Event.provider preq true])
        (record.usageOf req resp))]

/-- The nested form of a chain: for builders `b1, ..., bn` and terminal handler `t`,
`b1.Next (b2.Next (... (bn.Next t)))`. -/
def nestedChain : List Builder → handler.Handler → handler.Handler
  | [], t => t
  | b :: bs, t => b.Next (nestedChain bs t)

/-! ## Example inputs -/

namespace Example

/-- Examine rules: the prompt is the input, every output is classified
Intermediate. -/
def rules : ExamineRules := ⟨fun s => s, fun _ => ResultIntermediate⟩

/-- Adapter at price 2 whose backend answers "covers" with 120 tokens. -/
def zhipuOk : zhipu.Handler := ⟨"key", 2, fun _ _ => Except.ok ("covers", 120, "t1")⟩

/-- Adapter whose backend always times out. -/
def zhipuDown : zhipu.Handler := ⟨"key", 2, fun _ _ => Except.error "timeout"⟩

/-- The configuration found for every business key in the example databases. -/
def cfg : Config := ⟨"glm", none⟩

/-- Database with a configuration for every key, where inserts succeed. -/
def dbOk : gorm.DB := ⟨fun _ => some cfg, fun _ _ => true⟩

/-- Database with a configuration for every key, where every insert fails. -/
def dbAppendFails : gorm.DB := ⟨fun _ => some cfg, fun _ _ => false⟩

/-- Database without any configuration. -/
def dbNoConfig : gorm.DB := ⟨fun _ => none, fun _ _ => true⟩

/-- Credit module whose service accepts every debit. -/
def creditOk : credit.Module := ⟨⟨fun _ _ _ _ => true⟩⟩

/-- Credit module whose service refuses every debit. -/
def creditRefuses : credit.Module := ⟨⟨fun _ _ _ _ => false⟩⟩

/-- Request of user 7 with correlation id 42 for the key "question_examine". -/
def req : Request := ⟨"question_examine", "answer", 7, 42, "", none⟩

/-- Request for a key that no chain serves. -/
def reqOther : Request := ⟨"resume_polish", "answer", 7, 43, "", none⟩

/-- The response of the example chain to `req`. -/
def resp : Response := ⟨Output.examined ResultIntermediate "covers", 120, 240, "t1"⟩

/-- The usage record of the example chain for `req`. -/
def usage : UsageRecord := ⟨7, "question_examine", 120, 240, "covers", 42⟩

end Example

/-! ## Package `cases/internal/domain`: `examine.go` -/

namespace domain

/-- Struct `ExamineCaseResult` of `domain/examine.go`; the `int64` fields are
integers. -/
structure ExamineCaseResult where
  Cid : Int
  Result : CaseResult
  RawResult : String
  Tokens : Int
  Amount : Int
  Tid : String
  deriving DecidableEq, Repr

/-- The zero value of `ExamineCaseResult`: every field holds the zero value of its
type. -/
def ExamineCaseResult.zero : ExamineCaseResult := ⟨0, 0, "", 0, 0, ""⟩

end domain

/-! ## `InitZhipu` of `handlers.go` -/

/-- A `float64` value, given by the three fields of its IEEE 754 binary64 encoding. -/
structure Float64 where
  sign : Bool
  exponent : Nat
  fraction : Nat
  exponent_lt : exponent < 2048
  fraction_lt : fraction < 2 ^ 52

/-- The rational number that a finite `float64` denotes; `none` for the infinities
and NaN. -/
def Float64.toRat (f : Float64) : Option ℚ :=
  if f.exponent = 2047 then none
  else if f.exponent = 0 then
    some ((if f.sign then -1 else 1) * (f.fraction : ℚ) / 2 ^ 1074)
  else if f.exponent < 1075 then
    some ((if f.sign then -1 else 1) * ((2 ^ 52 + f.fraction : Nat) : ℚ) /
      2 ^ (1075 - f.exponent))
  else
    some ((if f.sign then -1 else 1) * ((2 ^ 52 + f.fraction : Nat) : ℚ) *
      2 ^ (f.exponent - 1075))

/-- Whether a `float64` denotes an integer. -/
def Float64.isInteger (f : Float64) : Bool :=
  if f.exponent = 2047 then false
  else if f.exponent = 0 then f.fraction % 2 ^ 1074 == 0
  else if f.exponent < 1075 then (2 ^ 52 + f.fraction) % 2 ^ (1075 - f.exponent) == 0
  else true

/-- The `float64` value 0.5. -/
def Float64.half : Float64 := ⟨false, 1022, 0, by decide, by decide⟩

/-- The `float64` value 2. -/
def Float64.two : Float64 := ⟨false, 1024, 0, by decide, by decide⟩

/-- Local struct `Config` of `InitZhipu`: the API key and the price, a `float64`. -/
structure InitZhipu.Config where
  APIKey : String
  Price : Float64

/-- Function `InitZhipu` of `handlers.go`.  `unmarshal` is the outcome of
`econf.UnmarshalKey("zhipu", &cfg)`: an error or the configuration read.
`newHandler` stands for `zhipu.NewHandler`, whose code is missing; it receives the
API key and the price.  A panic is the `error` outcome. -/
def InitZhipu {H : Type} (unmarshal : Except String InitZhipu.Config)
    (newHandler : String → Float64 → Except String H) : Except String H :=
  match unmarshal with
  | Except.error err => Except.error err
  | Except.ok cfg =>
    match newHandler cfg.APIKey cfg.Price with
    | Except.error err => Except.error err
    | Except.ok h => Except.ok h

/-- Conversion `CaseResult(u)` of a `uint8` value `u`. -/
def domain.CaseResult.ofUint8 (u : Fin 256) : CaseResult := u

/-! ## Go values shared by the remaining packages -/

/-- A non-nil Go `error` value: a package-level sentinel, or the product of
`fmt.Errorf`. -/
inductive GoError where
  | sentinel (name : String)
  | errorf (msg : String)
  deriving DecidableEq, Repr

/-- The value of an `int64` computation: the integer wrapped into the signed 64-bit
range. -/
def wrapInt64 (x : Int) : Int := (x + 2 ^ 63) % 2 ^ 64 - 2 ^ 63

/-! ## Package `marketing/internal/service`: `service.go` -/

namespace marketing

/-- Struct `domain.RedemptionCode`, declared outside the available sources; the
service reads its field `SPUType` only. -/
structure RedemptionCode where
  Code : String
  SPUType : String
  deriving DecidableEq, Repr

/-- Struct `orderhdl.RedeemInfo`, as built in `RedeemRedemptionCode`. -/
structure RedeemInfo where
  RedeemerID : Int
  Code : RedemptionCode
  deriving DecidableEq, Repr

/-- Interface `orderhdl.RedeemerHandler`: `Redeem(ctx, info) error`, acting on the
state `σ` of the outside world. -/
structure RedeemerHandler (σ : Type) where
  Redeem : RedeemInfo → σ → Option GoError × σ

/-- Interface `repository.MarketingRepository`, with the three methods the service
calls; each returns its Go results and the new state. -/
structure MarketingRepository (σ : Type) where
  SetUnusedRedemptionCodeStatusUsed : Int → String → σ → (RedemptionCode × Option GoError) × σ
  FindRedemptionCodesByUID : Int → Int → Int → σ → (List RedemptionCode × Option GoError) × σ
  TotalRedemptionCodes : Int → σ → (Int × Option GoError) × σ

/-- Variable `repository.ErrRedemptionNotFound`, declared outside the available
sources. -/
def repository.ErrRedemptionNotFound : GoError := GoError.sentinel "ErrRedemptionNotFound"

/-- Variable `repository.ErrRedemptionCodeUsed`, declared outside the available
sources. -/
def repository.ErrRedemptionCodeUsed : GoError := GoError.sentinel "ErrRedemptionCodeUsed"

/-- Variable `ErrRedemptionNotFound` of `service.go`. -/
def ErrRedemptionNotFound : GoError := repository.ErrRedemptionNotFound

/-- Variable `ErrRedemptionCodeUsed` of `service.go`. -/
def ErrRedemptionCodeUsed : GoError := repository.ErrRedemptionCodeUsed

/-- Struct `service` of `service.go`, with the fields its redemption methods use:
the repository and the map of redeemers by SPU type, as its list of entries. -/
structure service (σ : Type) where
  repo : MarketingRepository σ
  redeemers : List (String × RedeemerHandler σ)

/-- Function `NewService` of `service.go`, as far as redemption is concerned.
`newCodeMemberHandler` stands for `orderhdl.NewCodeMemberHandler` with the
producers and the code generator it is given; the redeemer registry gets the single
entry "member". -/
def NewService {σ : Type} (repo : MarketingRepository σ)
    (newCodeMemberHandler : MarketingRepository σ → RedeemerHandler σ) : service σ :=
  let codeMemberHandler := newCodeMemberHandler repo
  let redeemerRegistry := [("member", codeMemberHandler)]
  { repo := repo, redeemers := redeemerRegistry }

/-- Method `RedeemRedemptionCode` of `service.go`. -/
def service.RedeemRedemptionCode {σ : Type} (s : service σ) (uid : Int) (code : String)
    (st : σ) : Option GoError × σ :=
  match s.repo.SetUnusedRedemptionCodeStatusUsed uid code st with
  | ((_, some err), st1) => (some err, st1)
  | ((r, none), st1) =>
    match s.redeemers.lookup r.SPUType with
    | none => (some (GoError.errorf ("未知兑换码SPU类型: " ++ r.SPUType)), st1)
    | some redeemer => redeemer.Redeem ⟨uid, r⟩ st1

/-- Result of `errgroup.Group.Wait` for the two tasks of `ListRedemptionCodes`: nil
when both returned nil, otherwise the first non-nil error that was recorded;
`findRecordedFirst` says whose error was recorded first when both fail. -/
def errgroupWait (findRecordedFirst : Bool) (findErr totalErr : Option GoError) :
    Option GoError :=
  match findErr, totalErr with
  | none, none => none
  | some e, none => some e
  | none, some e => some e
  | some e1, some e2 => if findRecordedFirst then some e1 else some e2

/-- Method `ListRedemptionCodes` of `service.go`.  The two tasks run concurrently;
`findRunsFirst` says which repository call acts on the state first and
`findRecordedFirst` whose error the group records first.  The results `codes` and
`total` are those assigned by the two tasks once `Wait` has returned. -/
def service.ListRedemptionCodes {σ : Type} (s : service σ)
    (findRunsFirst findRecordedFirst : Bool) (uid offset list : Int) (st : σ) :
    (List RedemptionCode × Int × Option GoError) × σ :=
  if findRunsFirst then
    let found := s.repo.FindRedemptionCodesByUID uid offset list st
    let counted := s.repo.TotalRedemptionCodes uid found.2
    ((found.1.1, counted.1.1, errgroupWait findRecordedFirst found.1.2 counted.1.2),
      counted.2)
  else
    let counted := s.repo.TotalRedemptionCodes uid st
    let found := s.repo.FindRedemptionCodesByUID uid offset list counted.2
    ((found.1.1, counted.1.1, errgroupWait findRecordedFirst found.1.2 counted.1.2),
      found.2)

end marketing

/-! ## Package `product/internal/web`: `handler.go` -/

namespace product

/-- Struct `domain.SKU`, declared outside the available sources, with the fields
that `toSKU` reads.  `ST` is the type of the sale type, which is not available
either. -/
structure DomainSKU (ST : Type) where
  SN : String
  Name : String
  Desc : String
  Price : Int
  Stock : Int
  StockLimit : Int
  SaleType : ST
  Attrs : String
  Image : String

/-- Struct `domain.SPU`, declared outside the available sources, with the fields
that `RetrieveSPUDetail` reads. -/
structure DomainSPU (ST : Type) where
  SN : String
  Name : String
  Desc : String
  SKUs : List (DomainSKU ST)

/-- Struct `SKU` of package `web`, declared outside the available sources, with the
fields that `toSKU` sets. -/
structure SKU where
  SN : String
  Name : String
  Desc : String
  Price : Int
  Stock : Int
  StockLimit : Int
  SaleType : Fin 256
  Attrs : String
  Image : String
  deriving DecidableEq, Repr

/-- Struct `SPU` of package `web`, declared outside the available sources, with the
fields that `RetrieveSPUDetail` sets. -/
structure SPU where
  SN : String
  Name : String
  Desc : String
  SKUs : List SKU
  deriving DecidableEq, Repr

/-- The values stored in the field `Data any` of a result by this handler. -/
inductive Data where
  | null
  | spu (v : SPU)
  | sku (v : SKU)
  deriving DecidableEq, Repr

/-- Struct `ginx.Result`. -/
structure Result where
  Code : Int
  Msg : String
  Data : Data
  deriving DecidableEq, Repr

/-- Struct `SNReq` of package `web`. -/
structure SNReq where
  SN : String
  deriving DecidableEq, Repr

/-- Interface `service.Service` of the product module, with the two lookups the
handler calls; each returns its value and its error. -/
structure Service (ST : Type) where
  FindSPUBySN : String → DomainSPU ST × Option GoError
  FindSKUBySN : String → DomainSKU ST × Option GoError

/-- Struct `Handler` of `handler.go`.  `ToUint8` is the method of the sale type and
`systemErrorResult` the package variable of that name, both declared outside the
available sources. -/
structure Handler (ST : Type) where
  svc : Service ST
  ToUint8 : ST → Fin 256
  systemErrorResult : Result

/-- Method `toSKU` of `handler.go`. -/
def Handler.toSKU {ST : Type} (h : Handler ST) (sku : DomainSKU ST) : SKU where
  SN := sku.SN
  Name := sku.Name
  Desc := sku.Desc
  Price := sku.Price
  Stock := sku.Stock
  StockLimit := sku.StockLimit
  SaleType := h.ToUint8 sku.SaleType
  Attrs := sku.Attrs
  Image := sku.Image

/-- Method `RetrieveSPUDetail` of `handler.go`. -/
def Handler.RetrieveSPUDetail {ST : Type} (h : Handler ST) (req : SNReq) :
    Result × Option GoError :=
  match h.svc.FindSPUBySN req.SN with
  | (_, some err) => (h.systemErrorResult, some err)
  | (spu, none) =>
    ({ Code := 0, Msg := "",
       Data := Data.spu
         { SN := spu.SN, Name := spu.Name, Desc := spu.Desc,
           SKUs := spu.SKUs.map fun src => h.toSKU src } },
      none)

/-- Method `RetrieveSKUDetail` of `handler.go`. -/
def Handler.RetrieveSKUDetail {ST : Type} (h : Handler ST) (req : SNReq) :
    Result × Option GoError :=
  match h.svc.FindSKUBySN req.SN with
  | (_, some err) => (h.systemErrorResult, some err)
  | (sku, none) => ({ Code := 0, Msg := "", Data := Data.sku (h.toSKU sku) }, none)

end product

/-! ## Package `order`: `wire_gen.go` -/

namespace order

/-- The DAO built by `dao.NewOrderGORMDAO(db)`; `DB` is the type of database
handles. -/
structure OrderGORMDAO (DB : Type) where
  db : DB
  deriving DecidableEq, Repr

/-- The repository built by `repository.NewRepository(orderDAO)`. -/
structure Repository (DB : Type) where
  dao : OrderGORMDAO DB
  deriving DecidableEq, Repr

/-- The service built by `service4.NewService(orderRepository)`. -/
structure Service (DB : Type) where
  repo : Repository DB
  deriving DecidableEq, Repr

/-- The package variables `once` and `svc` of `wire_gen.go`, together with the
record of the constructions made inside `once.Do`, oldest first. -/
structure Globals (DB : Type) where
  onceDone : Bool
  svc : Option (Service DB)
  constructed : List DB
  deriving DecidableEq, Repr

/-- The package variables at program start: `once` not yet done, `svc` nil. -/
def Globals.start {DB : Type} : Globals DB := ⟨false, none, []⟩

/-- Function `initService` of `wire_gen.go`: the body given to `once.Do` runs only
when `once` is not yet done; the value of `svc` is returned. -/
def initService {DB : Type} (db : DB) (g : Globals DB) : Option (Service DB) × Globals DB :=
  let g1 : Globals DB :=
    if g.onceDone then g
    else
      let orderDAO : OrderGORMDAO DB := ⟨db⟩
      let orderRepository : Repository DB := ⟨orderDAO⟩
      { onceDone := true, svc := some ⟨orderRepository⟩, constructed := g.constructed ++ [db] }
  (g1.svc, g1)

/-- A sequence of `initService` calls, one per database handle, from the given
package variables: the values returned, in order, and the final package
variables. -/
def initServiceSeq {DB : Type} : List DB → Globals DB → List (Option (Service DB)) × Globals DB
  | [], g => ([], g)
  | db :: dbs, g =>
    let first := initService db g
    let rest := initServiceSeq dbs first.2
    (first.1 :: rest.1, rest.2)

end order

/-! ## Fixture `mockInteractive` of the question `handler_test.go` -/

namespace interactive

/-- Struct `interactive.Interactive`, declared outside the available sources, with
the fields that `mockInteractive` sets. -/
structure Interactive where
  Biz : String
  BizId : Int
  ViewCnt : Int
  LikeCnt : Int
  CollectCnt : Int
  Liked : Bool
  Collected : Bool
  deriving DecidableEq, Repr

end interactive

/-- Method `mockInteractive` of `handler_test.go`, for an `int64` value `id`.  The
operator `%` of Go truncates towards zero, the additions are `int64` additions, and
`int` is 64 bits wide. -/
def mockInteractive (biz : String) (id : Int) : interactive.Interactive :=
  let liked := decide (Int.tmod id 2 = 1)
  let collected := decide (Int.tmod id 2 = 0)
  { Biz := biz
    BizId := id
    ViewCnt := wrapInt64 (id + 1)
    LikeCnt := wrapInt64 (id + 2)
    CollectCnt := wrapInt64 (id + 3)
    Liked := liked
    Collected := collected }

/-! ## Example inputs for the remaining packages -/

namespace Sample

/-- A redemption code of SPU type "member". -/
def memberCode : marketing.RedemptionCode := ⟨"code-1", "member"⟩

/-- A redemption code of SPU type "product". -/
def productCode : marketing.RedemptionCode := ⟨"code-2", "product"⟩

/-- Repository over a log of calls: marking succeeds with `memberCode`, one code is
found and the total is 1. -/
def repoOk : marketing.MarketingRepository (List String) where
  SetUnusedRedemptionCodeStatusUsed := fun _ _ st => ((memberCode, none), st ++ ["SetUsed"])
  FindRedemptionCodesByUID := fun _ _ _ st => (([memberCode], none), st ++ ["Find"])
  TotalRedemptionCodes := fun _ st => ((1, none), st ++ ["Total"])

/-- Repository over a log of calls whose code has been used already and whose
queries fail. -/
def repoUsed : marketing.MarketingRepository (List String) where
  SetUnusedRedemptionCodeStatusUsed := fun _ _ st =>
    ((⟨"", ""⟩, some marketing.ErrRedemptionCodeUsed), st ++ ["SetUsed"])
  FindRedemptionCodesByUID := fun _ _ _ st =>
    (([], some (GoError.sentinel "find failed")), st ++ ["Find"])
  TotalRedemptionCodes := fun _ st =>
    ((0, some (GoError.sentinel "total failed")), st ++ ["Total"])

/-- Repository over a log of calls where marking succeeds with `productCode`. -/
def repoProduct : marketing.MarketingRepository (List String) where
  SetUnusedRedemptionCodeStatusUsed := fun _ _ st => ((productCode, none), st ++ ["SetUsed"])
  FindRedemptionCodesByUID := fun _ _ _ st => (([productCode], none), st ++ ["Find"])
  TotalRedemptionCodes := fun _ st => ((1, none), st ++ ["Total"])

/-- Redeemer that logs its call and succeeds. -/
def memberHandler : marketing.RedeemerHandler (List String) where
  Redeem := fun info st => (none, st ++ ["Redeem " ++ info.Code.Code])

/-- A domain SKU whose sale type is the number 1. -/
def domainSKU : product.DomainSKU Nat := ⟨"sku-1", "monthly", "one month", 990, 10, 100, 1, "a", "i"⟩

/-- A domain SPU with two SKUs. -/
def domainSPU : product.DomainSPU Nat :=
  ⟨"spu-1", "member", "membership", [domainSKU, { domainSKU with SN := "sku-2" }]⟩

/-- The system error result used in the examples. -/
def systemErrorResult : product.Result := ⟨502001, "系统错误", product.Data.null⟩

/-- Product handler over a service that knows `spu-1` and `sku-1` only. -/
def productHandler : product.Handler Nat where
  svc :=
    { FindSPUBySN := fun sn =>
        if sn = "spu-1" then (domainSPU, none)
        else (⟨"", "", "", []⟩, some (GoError.sentinel "not found"))
      FindSKUBySN := fun sn =>
        if sn = "sku-1" then (domainSKU, none)
        else (⟨"", "", "", 0, 0, 0, 0, "", ""⟩, some (GoError.sentinel "not found")) }
  ToUint8 := fun n => ⟨n % 256, Nat.mod_lt n (by decide)⟩
  systemErrorResult := systemErrorResult

end Sample

/-! ## Specification vocabulary for `ListRedemptionCodes` -/

/-- The outcome of the call `FindRedemptionCodesByUID` made by `ListRedemptionCodes`
under the given order of the two tasks. -/
def marketing.service.findOutcome {σ : Type} (s : marketing.service σ) (findRunsFirst : Bool)
    (uid offset list : Int) (st : σ) :
    (List marketing.RedemptionCode × Option GoError) × σ :=
  if findRunsFirst then s.repo.FindRedemptionCodesByUID uid offset list st
  else s.repo.FindRedemptionCodesByUID uid offset list (s.repo.TotalRedemptionCodes uid st).2

/-- The outcome of the call `TotalRedemptionCodes` made by `ListRedemptionCodes`
under the given order of the two tasks. -/
def marketing.service.totalOutcome {σ : Type} (s : marketing.service σ) (findRunsFirst : Bool)
    (uid offset list : Int) (st : σ) : (Int × Option GoError) × σ :=
  if findRunsFirst then
    s.repo.TotalRedemptionCodes uid (s.repo.FindRedemptionCodesByUID uid offset list st).2
  else s.repo.TotalRedemptionCodes uid st

/-! ## Evaluation of the assembled chain -/

section Chain

variable (rules : ExamineRules) (l : log.HandlerBuilder) (c : config.HandlerBuilder)
  (cr : credit.HandlerBuilder) (r : record.HandlerBuilder) (zh : zhipu.Handler)

theorem chain_root (gpt : handler.Handler) :
    (InitQuestionExamineHandler rules (InitCommonHandlers l c cr r) gpt).root =
      l.Next (c.Next (cr.Next (r.Next ((NewQuestionExamineBizHandlerBuilder rules).Next gpt)))) :=
  rfl

theorem facade_dispatch (common : List Builder) (req : Request) (w : World)
    (hb : req.biz = "question_examine") :
    (InitHandlerFacade rules common zh).Handle req w =
      (InitQuestionExamineHandler rules common zh.toHandler).Handle req w := by
  simp [InitHandlerFacade, biz.NewHandler, FacadeHandler.Handle, hb, CompositionHandler.Biz,
    InitQuestionExamineHandler, NewCombinedBizHandler, CompositionHandler.toHandler,
    List.lookup]

theorem facade_unknown (common : List Builder) (req : Request) (w : World)
    (hb : req.biz ≠ "question_examine") :
    (InitHandlerFacade rules common zh).Handle req w = (Except.error Error.UnknownBusinessKey, w) := by
  have hne : (req.biz == "question_examine") = false := by simpa using hb
  simp [InitHandlerFacade, hne, biz.NewHandler, FacadeHandler.Handle, hb, CompositionHandler.Biz,
    InitQuestionExamineHandler, NewCombinedBizHandler, CompositionHandler.toHandler,
    List.lookup]

theorem chain_config_missing (req : Request) (w : World)
    (hc : c.repo.GetConfig req.biz = none) :
    (InitQuestionExamineHandler rules (InitCommonHandlers l c cr r) zh.toHandler).Handle req w =
      (Except.error Error.ConfigNotFound,
        w ++ [Event.getConfig req.biz false, Event.observe req.biz false]) := by
  simp [CompositionHandler.Handle, chain_root, log.HandlerBuilder.Next,
    config.HandlerBuilder.Next, hc, Except.isOk, Except.toBool]

theorem chain_provider_error (req : Request) (w : World) (cfg : Config) (d : String)
    (hc : c.repo.GetConfig req.biz = some cfg)
    (hp : zh.backend (beforeProvider req w) (providerRequest rules cfg req) = Except.error d) :
    (InitQuestionExamineHandler rules (InitCommonHandlers l c cr r) zh.toHandler).Handle req w =
      (Except.error (Error.ProviderError d),
        beforeProvider req w ++ [Event.provider (providerRequest rules cfg req) false,
          Event.observe req.biz false]) := by
  simp only [beforeProvider, providerRequest] at hp
  simp [CompositionHandler.Handle, chain_root, log.HandlerBuilder.Next,
    config.HandlerBuilder.Next, credit.HandlerBuilder.Next, record.HandlerBuilder.Next,
    QuestionExamineBizHandlerBuilder.Next, NewQuestionExamineBizHandlerBuilder,
    zhipu.Handler.toHandler, zhipu.Handler.Handle, hc, hp, Except.isOk, Except.toBool,
    beforeProvider, providerRequest]

theorem chain_debit_ok (req : Request) (w : World) (cfg : Config) (text tid : String)
    (tokens : Nat)
    (hc : c.repo.GetConfig req.biz = some cfg)
    (hp : zh.backend (beforeProvider req w) (providerRequest rules cfg req) =
      Except.ok (text, tokens, tid))
    (hd : cr.svc.Debit
      (recordedWorld r req (providerRequest rules cfg req)
        (examinedResponse rules zh (providerRequest rules cfg req) text tokens tid) w)
      req.uid (tokens * zh.priceFor (providerRequest rules cfg req)) req.cid = true) :
    (InitQuestionExamineHandler rules (InitCommonHandlers l c cr r) zh.toHandler).Handle req w =
      (Except.ok (examinedResponse rules zh (providerRequest rules cfg req) text tokens tid),
        recordedWorld r req (providerRequest rules cfg req)
          (examinedResponse rules zh (providerRequest rules cfg req) text tokens tid) w ++
        [Event.debit req.uid (tokens * zh.priceFor (providerRequest rules cfg req)) req.cid true,
          Event.observe req.biz true]) := by
  simp only [beforeProvider, providerRequest, recordedWorld, examinedResponse,
    record.usageOf, Output.raw, List.append_assoc, List.cons_append, List.nil_append,
    List.singleton_append] at hp hd
  simp [CompositionHandler.Handle, chain_root, log.HandlerBuilder.Next,
    config.HandlerBuilder.Next, credit.HandlerBuilder.Next, record.HandlerBuilder.Next,
    QuestionExamineBizHandlerBuilder.Next, NewQuestionExamineBizHandlerBuilder,
    zhipu.Handler.toHandler, zhipu.Handler.Handle, hc, hp, hd, Except.isOk, Except.toBool,
    beforeProvider, providerRequest, recordedWorld, examinedResponse, record.usageOf,
    Output.raw]

theorem chain_debit_failed (req : Request) (w : World) (cfg : Config) (text tid : String)
    (tokens : Nat)
    (hc : c.repo.GetConfig req.biz = some cfg)
    (hp : zh.backend (beforeProvider req w) (providerRequest rules cfg req) =
      Except.ok (text, tokens, tid))
    (hd : cr.svc.Debit
      (recordedWorld r req (providerRequest rules cfg req)
        (examinedResponse rules zh (providerRequest rules cfg req) text tokens tid) w)
      req.uid (tokens * zh.priceFor (providerRequest rules cfg req)) req.cid = false) :
    (InitQuestionExamineHandler rules (InitCommonHandlers l c cr r) zh.toHandler).Handle req w =
      (Except.error Error.CreditDebitFailed,
        recordedWorld r req (providerRequest rules cfg req)
          (examinedResponse rules zh (providerRequest rules cfg req) text tokens tid) w ++
        [Event.debit req.uid (tokens * zh.priceFor (providerRequest rules cfg req)) req.cid false,
          Event.observe req.biz false]) := by
  simp only [beforeProvider, providerRequest, recordedWorld, examinedResponse,
    record.usageOf, Output.raw, List.append_assoc, List.cons_append, List.nil_append,
    List.singleton_append] at hp hd
  simp [CompositionHandler.Handle, chain_root, log.HandlerBuilder.Next,
    config.HandlerBuilder.Next, credit.HandlerBuilder.Next, record.HandlerBuilder.Next,
    QuestionExamineBizHandlerBuilder.Next, NewQuestionExamineBizHandlerBuilder,
    zhipu.Handler.toHandler, zhipu.Handler.Handle, hc, hp, hd, Except.isOk, Except.toBool,
    beforeProvider, providerRequest, recordedWorld, examinedResponse, record.usageOf,
    Output.raw]

end Chain


/-! ## Composition -/

theorem foldl_reverse_next (bs : List Builder) (t : handler.Handler) :
    bs.reverse.foldl (fun root current => current.Next root) t = nestedChain bs t := by
  induction bs with
  | nil => rfl
  | cons b bs ih => simp [List.foldl_append, nestedChain, ih]

theorem nestedChain_append (bs : List Builder) (b : Builder) (t : handler.Handler) :
    nestedChain (bs ++ [b]) t = nestedChain bs (b.Next t) := by
  induction bs with
  | nil => rfl
  | cons a bs ih => simp [nestedChain, ih]

/-! ## Claims -/

/-- C1: the chain assembled for "question_examine" has the fixed order log, config,
credit, record, business handler, provider.  `InitCommonHandlers` returns exactly
its four builders in the order log, cfg, credit, record; `InitQuestionExamineHandler`
combines the common builders followed by the business builder over the terminal
handler `gpt`, so that with the four common builders the assembled handler is
log(cfg(credit(record(business(gpt))))); and `InitModule` builds its facade from the
four builders in that same order. -/
theorem C1_chain_order (rules : ExamineRules) (zh : zhipu.Handler) (db : gorm.DB)
    (creditSvc : credit.Module) :
    (∀ (l : log.HandlerBuilder) (c : config.HandlerBuilder) (cr : credit.HandlerBuilder)
        (r : record.HandlerBuilder),
        InitCommonHandlers l c cr r = [l.toBuilder, c.toBuilder, cr.toBuilder, r.toBuilder]) ∧
    (∀ (common : List Builder) (gpt : handler.Handler),
        InitQuestionExamineHandler rules common gpt =
          NewCombinedBizHandler "question_examine"
            (common ++ [(NewQuestionExamineBizHandlerBuilder rules).toBuilder]) gpt) ∧
    (∀ (l : log.HandlerBuilder) (c : config.HandlerBuilder) (cr : credit.HandlerBuilder)
        (r : record.HandlerBuilder) (gpt : handler.Handler),
        (InitQuestionExamineHandler rules (InitCommonHandlers l c cr r) gpt).root =
          l.Next (c.Next (cr.Next (r.Next
            ((NewQuestionExamineBizHandlerBuilder rules).Next gpt))))) ∧
    (InitModule rules zh db creditSvc).1.Svc.facade =
      InitHandlerFacade rules
        (InitCommonHandlers log.NewHandler
          (config.NewBuilder (repository.NewCachedConfigRepository (dao.NewGORMConfigDAO db)))
          (credit.NewHandlerBuilder creditSvc.Svc
            (repository.NewLLMCreditLogRepo (InitLLMCreditLogDAO db)))
          (record.NewHandler (repository.NewLLMLogRepo (dao.NewGORMLLMLogDAO db))))
        zh :=
  ⟨fun _ _ _ _ => rfl, fun _ _ => rfl, fun _ _ _ _ _ => rfl, rfl⟩

/-- C5: a request whose business key is not a key of the facade map gets
`UnknownBusinessKey` and the trace is left as it was, whatever handlers the map
holds; for the facade built by `InitHandlerFacade` this is the case for every key
other than "question_examine". -/
theorem C5_unknown_business_key (rules : ExamineRules) (common : List Builder)
    (zh : zhipu.Handler) (f : FacadeHandler) (req : Request) (w : World) :
    (f.handlers.lookup req.biz = none →
      f.Handle req w = (Except.error Error.UnknownBusinessKey, w)) ∧
    (req.biz ≠ "question_examine" →
      (InitHandlerFacade rules common zh).Handle req w =
        (Except.error Error.UnknownBusinessKey, w)) := by
  refine ⟨fun h => ?_, fun h => facade_unknown rules zh common req w h⟩
  simp [FacadeHandler.Handle, h]

/-- Witness of C5: the example facade rejects the key "resume_polish", and an empty
facade rejects it as well. -/
theorem C5_unknown_business_key_witness :
    (NewHandler []).Handle Example.reqOther [] = (Except.error Error.UnknownBusinessKey, []) ∧
    (InitHandlerFacade Example.rules [] Example.zhipuOk).Handle Example.reqOther [] =
      (Except.error Error.UnknownBusinessKey, []) :=
  ⟨(C5_unknown_business_key Example.rules [] Example.zhipuOk (NewHandler [])
      Example.reqOther []).1 rfl,
   (C5_unknown_business_key Example.rules [] Example.zhipuOk (NewHandler [])
      Example.reqOther []).2 (by decide)⟩

/-- C9: for every list of builders and every terminal handler `t`, the handler
assembled by `NewCombinedBizHandler name bs t` is the nested application
`b1.Next (b2.Next (... (bn.Next t)))`: the empty list gives `t`, the first builder is
the outermost handler, the last builder wraps `t` directly, and `Biz()` is `name`. -/
theorem C9_combined_is_right_fold (name : String) (bs : List Builder) (t : handler.Handler) :
    (NewCombinedBizHandler name bs t).root = nestedChain bs t ∧
    (NewCombinedBizHandler name bs t).Handle = (nestedChain bs t).Handle ∧
    (NewCombinedBizHandler name bs t).Biz = name ∧
    (NewCombinedBizHandler name [] t).root = t ∧
    (∀ b : Builder, (NewCombinedBizHandler name (b :: bs) t).root =
      b.Next (NewCombinedBizHandler name bs t).root) ∧
    (∀ b : Builder, (NewCombinedBizHandler name (bs ++ [b]) t).root =
      (NewCombinedBizHandler name bs (b.Next t)).root) := by
  have h : ∀ (cs : List Builder) (u : handler.Handler),
      (NewCombinedBizHandler name cs u).root = nestedChain cs u :=
    fun cs u => foldl_reverse_next cs u
  refine ⟨h bs t, ?_, rfl, rfl, fun b => ?_, fun b => ?_⟩
  · funext req w
    simp [CompositionHandler.Handle, h]
  · rw [h, h, nestedChain]
  · rw [h, h, nestedChain_append]

/-- C10: the facade built by `InitHandlerFacade` has exactly one key,
"question_examine", which is the `Biz()` of the composition handler; that key maps
to the question-examine composition handler, and every request with that key is
handled by it. -/
theorem C10_facade_single_key (rules : ExamineRules) (common : List Builder)
    (zh : zhipu.Handler) :
    (InitHandlerFacade rules common zh).handlers.map Prod.fst = ["question_examine"] ∧
    (InitQuestionExamineHandler rules common zh.toHandler).Biz = "question_examine" ∧
    (InitHandlerFacade rules common zh).handlers.lookup "question_examine" =
      some (InitQuestionExamineHandler rules common zh.toHandler).toHandler ∧
    (∀ (req : Request) (w : World), req.biz = "question_examine" →
      (InitHandlerFacade rules common zh).Handle req w =
        (InitQuestionExamineHandler rules common zh.toHandler).Handle req w) := by
  refine ⟨rfl, rfl, ?_, fun req w hb => facade_dispatch rules zh common req w hb⟩
  simp [InitHandlerFacade, biz.NewHandler, CompositionHandler.Biz,
    InitQuestionExamineHandler, NewCombinedBizHandler, List.lookup]

/-- Witness of C10: the request for "question_examine" is handled by the composition
handler of the example facade, with the four common builders of `InitModule`. -/
theorem C10_facade_single_key_witness :
    Example.req.biz = "question_examine" ∧
    (InitModule Example.rules Example.zhipuOk Example.dbOk
        Example.creditOk).1.Svc.facade.Handle Example.req [] =
      (InitQuestionExamineHandler Example.rules
        (InitCommonHandlers log.NewHandler
          (config.NewBuilder (repository.NewCachedConfigRepository
            (dao.NewGORMConfigDAO Example.dbOk)))
          (credit.NewHandlerBuilder Example.creditOk.Svc
            (repository.NewLLMCreditLogRepo (InitLLMCreditLogDAO Example.dbOk)))
          (record.NewHandler (repository.NewLLMLogRepo (dao.NewGORMLLMLogDAO Example.dbOk))))
        Example.zhipuOk.toHandler).Handle Example.req [] :=
  ⟨rfl, (C10_facade_single_key Example.rules _ Example.zhipuOk).2.2.2 Example.req [] rfl⟩

/-- C6: when the configuration repository has no entry for the business key of the
request, the configuration handler returns `ConfigNotFound` whatever handler it
wraps, having only looked the configuration up; in the assembled chain the request
then fails with `ConfigNotFound` and no debit call, no Append call, no entry of the
business handler and no backend call is made. -/
theorem C6_config_not_found (repo : repository.ConfigRepository) (next : handler.Handler)
    (rules : ExamineRules) (l : log.HandlerBuilder) (cr : credit.HandlerBuilder)
    (r : record.HandlerBuilder) (zh : zhipu.Handler) (req : Request) (w : World)
    (hc : repo.GetConfig req.biz = none) :
    ((config.NewBuilder repo).Next next).Handle req w =
      (Except.error Error.ConfigNotFound, w ++ [Event.getConfig req.biz false]) ∧
    (req.biz = "question_examine" →
      ((InitHandlerFacade rules (InitCommonHandlers l (config.NewBuilder repo) cr r) zh).Handle
          req w).1 = Except.error Error.ConfigNotFound ∧
      debitCalls ((InitHandlerFacade rules
          (InitCommonHandlers l (config.NewBuilder repo) cr r) zh).Handle req w).2 =
        debitCalls w ∧
      appendCalls ((InitHandlerFacade rules
          (InitCommonHandlers l (config.NewBuilder repo) cr r) zh).Handle req w).2 =
        appendCalls w ∧
      examineCalls ((InitHandlerFacade rules
          (InitCommonHandlers l (config.NewBuilder repo) cr r) zh).Handle req w).2 =
        examineCalls w ∧
      providerCalls ((InitHandlerFacade rules
          (InitCommonHandlers l (config.NewBuilder repo) cr r) zh).Handle req w).2 =
        providerCalls w) := by
  constructor
  · simp [config.HandlerBuilder.Next, config.NewBuilder, hc]
  · intro hb
    rw [facade_dispatch rules zh _ req w hb,
      chain_config_missing rules l (config.NewBuilder repo) cr r zh req w hc]
    simp [debitCalls, appendCalls, examineCalls, providerCalls, List.filterMap_append]

/-- Witness of C6: with a database that holds no configuration, the example request
fails with `ConfigNotFound` and the backend is not called. -/
theorem C6_config_not_found_witness :
    Example.dbNoConfig.configs Example.req.biz = none ∧
    ((InitModule Example.rules Example.zhipuOk Example.dbNoConfig
        Example.creditOk).1.Svc.facade.Handle Example.req []).1 =
      Except.error Error.ConfigNotFound ∧
    providerCalls ((InitModule Example.rules Example.zhipuOk Example.dbNoConfig
        Example.creditOk).1.Svc.facade.Handle Example.req []).2 = [] :=
  ⟨rfl,
   ((C6_config_not_found
      (repository.NewCachedConfigRepository (dao.NewGORMConfigDAO Example.dbNoConfig))
      Example.zhipuOk.toHandler Example.rules log.NewHandler
      (credit.NewHandlerBuilder Example.creditOk.Svc
        (repository.NewLLMCreditLogRepo (InitLLMCreditLogDAO Example.dbNoConfig)))
      (record.NewHandler (repository.NewLLMLogRepo (dao.NewGORMLLMLogDAO Example.dbNoConfig)))
      Example.zhipuOk Example.req [] rfl).2 rfl).1,
   ((C6_config_not_found
      (repository.NewCachedConfigRepository (dao.NewGORMConfigDAO Example.dbNoConfig))
      Example.zhipuOk.toHandler Example.rules log.NewHandler
      (credit.NewHandlerBuilder Example.creditOk.Svc
        (repository.NewLLMCreditLogRepo (InitLLMCreditLogDAO Example.dbNoConfig)))
      (record.NewHandler (repository.NewLLMLogRepo (dao.NewGORMLLMLogDAO Example.dbNoConfig)))
      Example.zhipuOk Example.req [] rfl).2 rfl).2.2.2.2⟩

/-- C7: when the wrapped handler has succeeded with a response and the debit of its
amount is refused, the credit handler returns `CreditDebitFailed`: the outcome is an
error, so the caller receives no response, and the refused debit call is the only
step added. -/
theorem C7_debit_failure_discards_response (svc : credit.Service)
    (logRepo : repository.LLMCreditLogRepo) (next : handler.Handler) (req : Request)
    (w w1 : World) (resp : Response)
    (hn : next.Handle req w = (Except.ok resp, w1))
    (hd : svc.Debit w1 req.uid resp.amount req.cid = false) :
    ((credit.NewHandlerBuilder svc logRepo).Next next).Handle req w =
      (Except.error Error.CreditDebitFailed,
        w1 ++ [Event.debit req.uid resp.amount req.cid false]) ∧
    (∀ got : Response,
      (((credit.NewHandlerBuilder svc logRepo).Next next).Handle req w).1 ≠ Except.ok got) := by
  have h : ((credit.NewHandlerBuilder svc logRepo).Next next).Handle req w =
      (Except.error Error.CreditDebitFailed,
        w1 ++ [Event.debit req.uid resp.amount req.cid false]) := by
    simp [credit.HandlerBuilder.Next, credit.NewHandlerBuilder, hn, hd]
  refine ⟨h, fun got => ?_⟩
  rw [h]
  simp

/-- Witness of C7: the credit handler of `InitModule` over a service that refuses
every debit, wrapping the example adapter, reports `CreditDebitFailed`. -/
theorem C7_debit_failure_discards_response_witness :
    ((credit.NewHandlerBuilder Example.creditRefuses.Svc
        (repository.NewLLMCreditLogRepo (InitLLMCreditLogDAO Example.dbOk))).Next
      Example.zhipuOk.toHandler).Handle Example.req [] =
      (Except.error Error.CreditDebitFailed,
        [Event.provider Example.req true] ++ [Event.debit 7 240 42 false]) :=
  (C7_debit_failure_discards_response Example.creditRefuses.Svc
    (repository.NewLLMCreditLogRepo (InitLLMCreditLogDAO Example.dbOk))
    Example.zhipuOk.toHandler Example.req [] [Event.provider Example.req true]
    ⟨Output.text "covers", 120, 240, "t1"⟩ rfl rfl).1

/-- C8: when the wrapped handler has succeeded with a response, the record handler
returns that response with no error whether the Append fails or succeeds: a failing
Append does not fail the request. -/
theorem C8_append_failure_swallowed (repoFails repoWorks : repository.LLMLogRepo)
    (next : handler.Handler) (req : Request) (w w1 : World) (resp : Response)
    (hn : next.Handle req w = (Except.ok resp, w1))
    (hf : repoFails.Append w1 (record.usageOf req resp) = false)
    (hs : repoWorks.Append w1 (record.usageOf req resp) = true) :
    (((record.NewHandler repoFails).Next next).Handle req w).1 = Except.ok resp ∧
    (((record.NewHandler repoFails).Next next).Handle req w).1 =
      (((record.NewHandler repoWorks).Next next).Handle req w).1 ∧
    appended (((record.NewHandler repoFails).Next next).Handle req w).2 = appended w1 ∧
    appended (((record.NewHandler repoWorks).Next next).Handle req w).2 =
      appended w1 ++ [record.usageOf req resp] := by
  simp [record.HandlerBuilder.Next, record.NewHandler, hn, hf, hs, appended,
    List.filterMap_append]

/-- Witness of C8: the record handler of `InitModule` over a database whose inserts
fail returns the response of the example adapter. -/
theorem C8_append_failure_swallowed_witness :
    (((record.NewHandler (repository.NewLLMLogRepo
        (dao.NewGORMLLMLogDAO Example.dbAppendFails))).Next
      Example.zhipuOk.toHandler).Handle Example.req []).1 =
      Except.ok ⟨Output.text "covers", 120, 240, "t1"⟩ :=
  (C8_append_failure_swallowed
    (repository.NewLLMLogRepo (dao.NewGORMLLMLogDAO Example.dbAppendFails))
    (repository.NewLLMLogRepo (dao.NewGORMLLMLogDAO Example.dbOk))
    Example.zhipuOk.toHandler Example.req [] [Event.provider Example.req true]
    ⟨Output.text "covers", 120, 240, "t1"⟩ rfl rfl rfl).1

/-- Counterexample to C2 as stated: with a usage log whose Append fails, the example
request is handled successfully and debited once, yet no usage record has been
appended. -/
theorem C2_counterexample :
    ((InitModule Example.rules Example.zhipuOk Example.dbAppendFails
        Example.creditOk).1.Svc.facade.Handle Example.req []).1 = Except.ok Example.resp ∧
    debited ((InitModule Example.rules Example.zhipuOk Example.dbAppendFails
        Example.creditOk).1.Svc.facade.Handle Example.req []).2 = [(7, 240, 42)] ∧
    appended ((InitModule Example.rules Example.zhipuOk Example.dbAppendFails
        Example.creditOk).1.Svc.facade.Handle Example.req []).2 = [] := by
  decide

/-- C2, amended: for every request that the chain of `InitModule` handles
successfully, during that Handle call the backend is called once, exactly one Append
of a usage record is made and exactly one debit is made and performed, both carrying
the correlation id of the request; the tokens and amount of the record and the
debited amount are those reported by the provider adapter, with
`amount = tokens * price`; the record is persisted exactly when that Append
succeeds. -/
theorem C2_success_one_append_call_one_debit (rules : ExamineRules) (zh : zhipu.Handler)
    (db : gorm.DB) (creditSvc : credit.Module) (req : Request) (w w1 : World)
    (resp : Response)
    (h : (InitModule rules zh db creditSvc).1.Svc.facade.Handle req w = (Except.ok resp, w1)) :
    ∃ (cfg : Config) (text tid : String),
      db.configs req.biz = some cfg ∧
      (zh.Handle (providerRequest rules cfg req) (beforeProvider req w)).1 =
        Except.ok ⟨Output.text text, resp.tokens, resp.amount, tid⟩ ∧
      resp.amount = resp.tokens * zh.priceFor (providerRequest rules cfg req) ∧
      providerCalls w1 = providerCalls w ++ [providerRequest rules cfg req] ∧
      appendCalls w1 =
        appendCalls w ++ [⟨req.uid, req.biz, resp.tokens, resp.amount, text, req.cid⟩] ∧
      appended w1 =
        appended w ++
          (if db.insertLog
              (beforeProvider req w ++ [Event.provider (providerRequest rules cfg req) true])
              ⟨req.uid, req.biz, resp.tokens, resp.amount, text, req.cid⟩ = true
            then [⟨req.uid, req.biz, resp.tokens, resp.amount, text, req.cid⟩] else []) ∧
      debitCalls w1 = debitCalls w ++ [(req.uid, resp.amount, req.cid)] ∧
      debited w1 = debited w ++ [(req.uid, resp.amount, req.cid)] := by
  have hf : (InitModule rules zh db creditSvc).1.Svc.facade =
      InitHandlerFacade rules
        (InitCommonHandlers log.NewHandler
          (config.NewBuilder (repository.NewCachedConfigRepository (dao.NewGORMConfigDAO db)))
          (credit.NewHandlerBuilder creditSvc.Svc
            (repository.NewLLMCreditLogRepo (InitLLMCreditLogDAO db)))
          (record.NewHandler (repository.NewLLMLogRepo (dao.NewGORMLLMLogDAO db))))
        zh := rfl
  rw [hf] at h
  by_cases hb : req.biz = "question_examine"
  swap
  · rw [facade_unknown rules zh _ req w hb] at h
    simp at h
  rw [facade_dispatch rules zh _ req w hb] at h
  cases hc : db.configs req.biz with
  | none =>
    rw [chain_config_missing rules _ _ _ _ zh req w hc] at h
    simp at h
  | some cfg =>
    cases hp : zh.backend (beforeProvider req w) (providerRequest rules cfg req) with
    | error d =>
      rw [chain_provider_error rules _ _ _ _ zh req w cfg d hc hp] at h
      simp at h
    | ok out =>
      obtain ⟨text, tokens, tid⟩ := out
      cases hd : creditSvc.Svc.Debit
          (recordedWorld
            (record.NewHandler (repository.NewLLMLogRepo (dao.NewGORMLLMLogDAO db))) req
            (providerRequest rules cfg req)
            (examinedResponse rules zh (providerRequest rules cfg req) text tokens tid) w)
          req.uid (tokens * zh.priceFor (providerRequest rules cfg req)) req.cid with
      | false =>
        rw [chain_debit_failed rules _ _ _ _ zh req w cfg text tid tokens hc hp hd] at h
        simp at h
      | true =>
        rw [chain_debit_ok rules _ _ _ _ zh req w cfg text tid tokens hc hp hd] at h
        obtain ⟨hr, hw⟩ := Prod.mk.inj h
        have hresp : examinedResponse rules zh (providerRequest rules cfg req) text tokens tid
            = resp := by
          simpa using hr
        subst hresp
        subst hw
        refine ⟨cfg, text, tid, rfl, ?_, rfl, ?_, ?_, ?_, ?_, ?_⟩
        · simp [zhipu.Handler.Handle, hp, examinedResponse]
        · simp [providerCalls, recordedWorld, beforeProvider, List.filterMap_append]
        · simp [appendCalls, recordedWorld, beforeProvider, List.filterMap_append,
            record.usageOf, examinedResponse, Output.raw]
        · simp only [recordedWorld, record.NewHandler, repository.NewLLMLogRepo,
            dao.NewGORMLLMLogDAO, record.usageOf, examinedResponse, Output.raw]
          cases db.insertLog
              (beforeProvider req w ++ [Event.provider (providerRequest rules cfg req) true])
              ⟨req.uid, req.biz, tokens,
                tokens * zh.priceFor (providerRequest rules cfg req), text, req.cid⟩ <;>
            simp [appended, beforeProvider, List.filterMap_append]
        · simp [debitCalls, recordedWorld, beforeProvider, List.filterMap_append,
            examinedResponse]
        · simp [debited, recordedWorld, beforeProvider, List.filterMap_append,
            examinedResponse]

/-- Witness of C2: the example request succeeds with tokens 120 at price 2; one
record with tokens 120 and amount 240 is appended and 240 is debited once, both
under correlation id 42. -/
theorem C2_success_one_append_call_one_debit_witness :
    (InitModule Example.rules Example.zhipuOk Example.dbOk
        Example.creditOk).1.Svc.facade.Handle Example.req [] =
      (Except.ok Example.resp,
        [Event.getConfig "question_examine" true, Event.examine 42,
          Event.provider (providerRequest Example.rules Example.cfg Example.req) true,
          Event.append Example.usage true, Event.debit 7 240 42 true,
          Event.observe "question_examine" true]) ∧
    ∃ (cfg : Config) (text : String),
      appendCalls [Event.getConfig "question_examine" true, Event.examine 42,
          Event.provider (providerRequest Example.rules Example.cfg Example.req) true,
          Event.append Example.usage true, Event.debit 7 240 42 true,
          Event.observe "question_examine" true] =
        appendCalls [] ++ [⟨7, "question_examine", 120, 240, text, 42⟩] ∧
      (240 : Nat) = 120 * Example.zhipuOk.priceFor (providerRequest Example.rules cfg Example.req) :=
  ⟨by decide,
   match C2_success_one_append_call_one_debit Example.rules Example.zhipuOk Example.dbOk
      Example.creditOk Example.req [] _ Example.resp (by decide) with
   | ⟨cfg, text, _, _, _, hamt, _, hcalls, _⟩ => ⟨cfg, text, hcalls, hamt⟩⟩

/-- C3: when the provider adapter returns an error on the request that the chain of
`InitQuestionExamineHandler` over the four common builders sends it, the facade
returns that same error, and during the Handle call no debit call and no Append call
is made, so nothing is debited and no usage record is appended. -/
theorem C3_provider_error_no_debit_no_record (rules : ExamineRules)
    (l : log.HandlerBuilder) (c : config.HandlerBuilder) (cr : credit.HandlerBuilder)
    (r : record.HandlerBuilder) (zh : zhipu.Handler) (req : Request) (w wp : World)
    (cfg : Config) (e : Error)
    (hb : req.biz = "question_examine")
    (hc : c.repo.GetConfig req.biz = some cfg)
    (he : zh.Handle (providerRequest rules cfg req) (beforeProvider req w) =
      (Except.error e, wp)) :
    ((InitHandlerFacade rules (InitCommonHandlers l c cr r) zh).Handle req w).1 =
      Except.error e ∧
    debitCalls ((InitHandlerFacade rules (InitCommonHandlers l c cr r) zh).Handle req w).2 =
      debitCalls w ∧
    debited ((InitHandlerFacade rules (InitCommonHandlers l c cr r) zh).Handle req w).2 =
      debited w ∧
    appendCalls ((InitHandlerFacade rules (InitCommonHandlers l c cr r) zh).Handle req w).2 =
      appendCalls w ∧
    appended ((InitHandlerFacade rules (InitCommonHandlers l c cr r) zh).Handle req w).2 =
      appended w := by
  rw [facade_dispatch rules zh _ req w hb]
  cases hp : zh.backend (beforeProvider req w) (providerRequest rules cfg req) with
  | ok out =>
    obtain ⟨text, tokens, tid⟩ := out
    simp [zhipu.Handler.Handle, hp] at he
  | error d =>
    have hed : e = Error.ProviderError d := by
      simp [zhipu.Handler.Handle, hp] at he
      exact he.1.symm
    rw [chain_provider_error rules l c cr r zh req w cfg d hc hp, hed]
    simp [debitCalls, debited, appendCalls, appended, beforeProvider, List.filterMap_append]

/-- Witness of C3: with a backend that times out, the example request fails with the
error of the adapter and nothing is debited. -/
theorem C3_provider_error_no_debit_no_record_witness :
    Example.zhipuDown.Handle (providerRequest Example.rules Example.cfg Example.req)
        (beforeProvider Example.req []) =
      (Except.error (Error.ProviderError "timeout"),
        beforeProvider Example.req [] ++
          [Event.provider (providerRequest Example.rules Example.cfg Example.req) false]) ∧
    ((InitModule Example.rules Example.zhipuDown Example.dbOk
        Example.creditOk).1.Svc.facade.Handle Example.req []).1 =
      Except.error (Error.ProviderError "timeout") ∧
    debitCalls ((InitModule Example.rules Example.zhipuDown Example.dbOk
        Example.creditOk).1.Svc.facade.Handle Example.req []).2 = debitCalls [] :=
  ⟨rfl,
   (C3_provider_error_no_debit_no_record Example.rules log.NewHandler
      (config.NewBuilder (repository.NewCachedConfigRepository
        (dao.NewGORMConfigDAO Example.dbOk)))
      (credit.NewHandlerBuilder Example.creditOk.Svc
        (repository.NewLLMCreditLogRepo (InitLLMCreditLogDAO Example.dbOk)))
      (record.NewHandler (repository.NewLLMLogRepo (dao.NewGORMLLMLogDAO Example.dbOk)))
      Example.zhipuDown Example.req [] _ Example.cfg _ rfl rfl rfl).1,
   (C3_provider_error_no_debit_no_record Example.rules log.NewHandler
      (config.NewBuilder (repository.NewCachedConfigRepository
        (dao.NewGORMConfigDAO Example.dbOk)))
      (credit.NewHandlerBuilder Example.creditOk.Svc
        (repository.NewLLMCreditLogRepo (InitLLMCreditLogDAO Example.dbOk)))
      (record.NewHandler (repository.NewLLMLogRepo (dao.NewGORMLLMLogDAO Example.dbOk)))
      Example.zhipuDown Example.req [] _ Example.cfg _ rfl rfl rfl).2.1⟩

/-- Counterexample to C4 as stated: with a credit service that refuses the debit and
a usage log that accepts the Append, the example request fails with
`CreditDebitFailed`, nothing is debited, and yet the usage record has been appended
during that Handle call. -/
theorem C4_counterexample :
    ((InitModule Example.rules Example.zhipuOk Example.dbOk
        Example.creditRefuses).1.Svc.facade.Handle Example.req []).1 =
      Except.error Error.CreditDebitFailed ∧
    debited ((InitModule Example.rules Example.zhipuOk Example.dbOk
        Example.creditRefuses).1.Svc.facade.Handle Example.req []).2 = [] ∧
    appended ((InitModule Example.rules Example.zhipuOk Example.dbOk
        Example.creditRefuses).1.Svc.facade.Handle Example.req []).2 = [Example.usage] := by
  decide

/-- C4, amended: for every request on which the credit debit fails, that is, the
chain of `InitModule` returns `CreditDebitFailed`, the trace of that Handle call ends
with the one Append call of the usage record, then the one refused debit call, then
the observation of the failure: credit delegates to record first, so the Append has
been made before the debit is attempted.  Nothing is debited, and the record is
persisted exactly when the Append succeeded. -/
theorem C4_debit_failure_follows_append (rules : ExamineRules) (zh : zhipu.Handler)
    (db : gorm.DB) (creditSvc : credit.Module) (req : Request) (w w1 : World)
    (h : (InitModule rules zh db creditSvc).1.Svc.facade.Handle req w =
      (Except.error Error.CreditDebitFailed, w1)) :
    ∃ (cfg : Config) (text : String) (tokens amount : Nat) (stored : Bool),
      amount = tokens * zh.priceFor (providerRequest rules cfg req) ∧
      stored = db.insertLog
        (beforeProvider req w ++ [Event.provider (providerRequest rules cfg req) true])
        ⟨req.uid, req.biz, tokens, amount, text, req.cid⟩ ∧
      w1 = beforeProvider req w ++
        [Event.provider (providerRequest rules cfg req) true,
          Event.append ⟨req.uid, req.biz, tokens, amount, text, req.cid⟩ stored,
          Event.debit req.uid amount req.cid false,
          Event.observe req.biz false] ∧
      appendCalls w1 = appendCalls w ++ [⟨req.uid, req.biz, tokens, amount, text, req.cid⟩] ∧
      appended w1 =
        appended w ++
          (if stored = true then [⟨req.uid, req.biz, tokens, amount, text, req.cid⟩] else []) ∧
      debitCalls w1 = debitCalls w ++ [(req.uid, amount, req.cid)] ∧
      debited w1 = debited w := by
  have hf : (InitModule rules zh db creditSvc).1.Svc.facade =
      InitHandlerFacade rules
        (InitCommonHandlers log.NewHandler
          (config.NewBuilder (repository.NewCachedConfigRepository (dao.NewGORMConfigDAO db)))
          (credit.NewHandlerBuilder creditSvc.Svc
            (repository.NewLLMCreditLogRepo (InitLLMCreditLogDAO db)))
          (record.NewHandler (repository.NewLLMLogRepo (dao.NewGORMLLMLogDAO db))))
        zh := rfl
  rw [hf] at h
  by_cases hb : req.biz = "question_examine"
  swap
  · rw [facade_unknown rules zh _ req w hb] at h
    simp at h
  rw [facade_dispatch rules zh _ req w hb] at h
  cases hc : db.configs req.biz with
  | none =>
    rw [chain_config_missing rules _ _ _ _ zh req w hc] at h
    simp at h
  | some cfg =>
    cases hp : zh.backend (beforeProvider req w) (providerRequest rules cfg req) with
    | error d =>
      rw [chain_provider_error rules _ _ _ _ zh req w cfg d hc hp] at h
      simp at h
    | ok out =>
      obtain ⟨text, tokens, tid⟩ := out
      cases hd : creditSvc.Svc.Debit
          (recordedWorld
            (record.NewHandler (repository.NewLLMLogRepo (dao.NewGORMLLMLogDAO db))) req
            (providerRequest rules cfg req)
            (examinedResponse rules zh (providerRequest rules cfg req) text tokens tid) w)
          req.uid (tokens * zh.priceFor (providerRequest rules cfg req)) req.cid with
      | true =>
        rw [chain_debit_ok rules _ _ _ _ zh req w cfg text tid tokens hc hp hd] at h
        simp at h
      | false =>
        rw [chain_debit_failed rules _ _ _ _ zh req w cfg text tid tokens hc hp hd] at h
        obtain ⟨_, hw⟩ := Prod.mk.inj h
        subst hw
        refine ⟨cfg, text, tokens, tokens * zh.priceFor (providerRequest rules cfg req),
          db.insertLog
            (beforeProvider req w ++ [Event.provider (providerRequest rules cfg req) true])
            ⟨req.uid, req.biz, tokens,
              tokens * zh.priceFor (providerRequest rules cfg req), text, req.cid⟩,
          rfl, rfl, ?_, ?_, ?_, ?_, ?_⟩
        · simp [recordedWorld, record.NewHandler, repository.NewLLMLogRepo,
            dao.NewGORMLLMLogDAO, record.usageOf, examinedResponse, Output.raw]
        · simp [appendCalls, recordedWorld, beforeProvider, List.filterMap_append,
            record.usageOf, examinedResponse, Output.raw]
        · simp only [recordedWorld, record.NewHandler, repository.NewLLMLogRepo,
            dao.NewGORMLLMLogDAO, record.usageOf, examinedResponse, Output.raw]
          cases db.insertLog
              (beforeProvider req w ++ [Event.provider (providerRequest rules cfg req) true])
              ⟨req.uid, req.biz, tokens,
                tokens * zh.priceFor (providerRequest rules cfg req), text, req.cid⟩ <;>
            simp [appended, beforeProvider, List.filterMap_append]
        · simp [debitCalls, recordedWorld, beforeProvider, List.filterMap_append,
            examinedResponse]
        · simp [debited, recordedWorld, beforeProvider, List.filterMap_append,
            examinedResponse]

/-- Witness of C4: with a credit service that refuses every debit, the example
request fails with `CreditDebitFailed` after one Append call and one refused debit
call. -/
theorem C4_debit_failure_follows_append_witness :
    (InitModule Example.rules Example.zhipuOk Example.dbOk
        Example.creditRefuses).1.Svc.facade.Handle Example.req [] =
      (Except.error Error.CreditDebitFailed,
        [Event.getConfig "question_examine" true, Event.examine 42,
          Event.provider (providerRequest Example.rules Example.cfg Example.req) true,
          Event.append Example.usage true, Event.debit 7 240 42 false,
          Event.observe "question_examine" false]) ∧
    ∃ amount : Nat,
      debitCalls [Event.getConfig "question_examine" true, Event.examine 42,
          Event.provider (providerRequest Example.rules Example.cfg Example.req) true,
          Event.append Example.usage true, Event.debit 7 240 42 false,
          Event.observe "question_examine" false] =
        debitCalls [] ++ [(7, amount, 42)] :=
  ⟨by decide,
   match C4_debit_failure_follows_append Example.rules Example.zhipuOk Example.dbOk
      Example.creditRefuses Example.req [] _ (by decide) with
   | ⟨_, _, _, amount, _, _, _, _, _, _, hcalls, _⟩ => ⟨amount, hcalls⟩⟩

/-- Counterexample to C12 as stated: a configuration whose price is 0.5 is read by
`InitZhipu` and 0.5 is what `zhipu.NewHandler` receives; 0.5 is a `float64` that is
not an integer. -/
theorem C12_counterexample :
    InitZhipu (Except.ok ⟨"key", Float64.half⟩) (fun key price => Except.ok (key, price)) =
      Except.ok ("key", Float64.half) ∧
    Float64.half.toRat = some (1 / 2) ∧
    Float64.half.isInteger = false := by
  refine ⟨rfl, ?_, by decide⟩
  simp [Float64.toRat, Float64.half]
  norm_num

/-- The `float64` value 0.5 denotes the rational 1/2. -/
theorem Float64.half_toRat : Float64.half.toRat = some (1 / 2) := by
  simp [Float64.toRat, Float64.half]
  norm_num

/-- The `float64` value 2 denotes the rational 2. -/
theorem Float64.two_toRat : Float64.two.toRat = some 2 := by
  simp [Float64.toRat, Float64.two]
  norm_num

/-- C12, amended: the price that `InitZhipu` reads from configuration is a `float64`
and is passed to `zhipu.NewHandler` exactly as read, together with the API key.
When the handler that is built holds the value of that price as its integer price
per token and no override is in force, then for every token count reported by the
backend the amount of the response is the exact product of the tokens and the price
that was read.  For the price 0.5 and any odd token count the integer amount of the
response is not the exact product, whatever handler is built.  In general, an
integer amount can be the exact product for every token count exactly when the price
read denotes a non-negative integer. -/
theorem C12_float_price_exact_product_iff_integer :
    (∀ (H : Type) (cfg : InitZhipu.Config)
        (newHandler : String → Float64 → Except String H),
        InitZhipu (Except.ok cfg) newHandler = newHandler cfg.APIKey cfg.Price) ∧
    (∀ (H : Type) (err : String) (newHandler : String → Float64 → Except String H),
        InitZhipu (Except.error err) newHandler = Except.error err) ∧
    (∀ (cfg : InitZhipu.Config)
        (newHandler : String → Float64 → Except String zhipu.Handler)
        (h : zhipu.Handler) (q : ℚ),
        InitZhipu (Except.ok cfg) newHandler = Except.ok h →
        cfg.Price.toRat = some q → q = (h.price : ℚ) →
        ∀ (req : Request) (w : World) (text tid : String) (tokens : Nat),
          h.priceFor req = h.price →
          h.backend w req = Except.ok (text, tokens, tid) →
          ∃ resp : Response, (h.Handle req w).1 = Except.ok resp ∧
            resp.tokens = tokens ∧ (resp.amount : ℚ) = (tokens : ℚ) * q) ∧
    (∀ (key : String) (newHandler : String → Float64 → Except String zhipu.Handler)
        (h : zhipu.Handler),
        InitZhipu (Except.ok ⟨key, Float64.half⟩) newHandler = Except.ok h →
        ∀ (req : Request) (w : World) (resp : Response) (q : ℚ),
          (h.Handle req w).1 = Except.ok resp → resp.tokens % 2 = 1 →
          Float64.half.toRat = some q →
          (resp.amount : ℚ) ≠ (resp.tokens : ℚ) * q) ∧
    (∀ (p : Float64) (q : ℚ), p.toRat = some q →
        ((∀ tokens : Nat, ∃ amount : Nat, (amount : ℚ) = (tokens : ℚ) * q) ↔
          ∃ n : Nat, q = (n : ℚ))) := by
  refine ⟨fun H cfg newHandler => ?_, fun _ _ _ => rfl, ?_, ?_, ?_⟩
  · simp only [InitZhipu]
    cases newHandler cfg.APIKey cfg.Price <;> rfl
  · intro cfg newHandler h q _ _ hq req w text tid tokens hprice hb
    refine ⟨⟨Output.text text, tokens, tokens * h.priceFor req, tid⟩, ?_, rfl, ?_⟩
    · simp [zhipu.Handler.Handle, hb]
    · rw [hprice, hq]
      push_cast
      rfl
  · intro key newHandler h _ req w resp q _ hodd hq habs
    rw [Float64.half_toRat] at hq
    have hq2 : q = 1 / 2 := (Option.some.inj hq).symm
    rw [hq2] at habs
    have h2 : (2 : ℚ) * (resp.amount : ℚ) = (resp.tokens : ℚ) := by
      rw [habs]
      ring
    have h3 : 2 * resp.amount = resp.tokens := by exact_mod_cast h2
    omega
  · intro p q _
    constructor
    · intro hall
      obtain ⟨amount, ha⟩ := hall 1
      exact ⟨amount, by simpa using ha.symm⟩
    · rintro ⟨n, rfl⟩ tokens
      exact ⟨tokens * n, by push_cast; rfl⟩

/-- Witness of C12: the configuration price 2 is read and the handler built holds
the integer price 2; for the example request, whose backend reports 120 tokens, the
amount is the exact product 120 * 2. -/
theorem C12_float_price_exact_product_iff_integer_witness :
    InitZhipu (Except.ok ⟨"key", Float64.two⟩) (fun _ _ => Except.ok Example.zhipuOk) =
      Except.ok Example.zhipuOk ∧
    Float64.two.toRat = some 2 ∧
    Example.zhipuOk.priceFor Example.req = Example.zhipuOk.price ∧
    Example.zhipuOk.backend [] Example.req = Except.ok ("covers", 120, "t1") ∧
    ∃ resp : Response, (Example.zhipuOk.Handle Example.req []).1 = Except.ok resp ∧
      resp.tokens = 120 ∧ (resp.amount : ℚ) = ((120 : Nat) : ℚ) * 2 :=
  ⟨rfl, Float64.two_toRat, rfl, rfl,
   C12_float_price_exact_product_iff_integer.2.2.1 ⟨"key", Float64.two⟩
     (fun _ _ => Except.ok Example.zhipuOk) Example.zhipuOk 2 rfl Float64.two_toRat
     (by simp [Example.zhipuOk]) Example.req [] "covers" "t1" 120 rfl rfl⟩

/-- C13: the observability handler is transparent.  For every wrapped handler `h`,
request and trace, the result of `log.Next(h).Handle` is the result of the one call
`h.Handle` on the same request, and the trace is the trace of that call followed by
the observation of its outcome; no other step is added. -/
theorem C13_log_handler_transparent (b : log.HandlerBuilder) (h : handler.Handler)
    (req : Request) (w : World) :
    ((b.Next h).Handle req w).1 = (h.Handle req w).1 ∧
    ((b.Next h).Handle req w).2 =
      (h.Handle req w).2 ++ [Event.observe req.biz (h.Handle req w).1.isOk] ∧
    debitCalls ((b.Next h).Handle req w).2 = debitCalls (h.Handle req w).2 ∧
    appendCalls ((b.Next h).Handle req w).2 = appendCalls (h.Handle req w).2 ∧
    providerCalls ((b.Next h).Handle req w).2 = providerCalls (h.Handle req w).2 ∧
    examineCalls ((b.Next h).Handle req w).2 = examineCalls (h.Handle req w).2 := by
  simp [log.HandlerBuilder.Next, debitCalls, appendCalls, providerCalls, examineCalls,
    List.filterMap_append]

/-- C15: the four tiers are strictly ordered, Failed < Basic < Intermediate <
Advanced; `ToUint8` gives 0, 1, 2 and 3 on them and is strictly increasing. -/
theorem C15_tiers_strictly_ordered :
    ResultFailed < ResultBasic ∧ ResultBasic < ResultIntermediate ∧
    ResultIntermediate < ResultAdvanced ∧
    (CaseResult.ToUint8 ResultFailed).val = 0 ∧ (CaseResult.ToUint8 ResultBasic).val = 1 ∧
    (CaseResult.ToUint8 ResultIntermediate).val = 2 ∧
    (CaseResult.ToUint8 ResultAdvanced).val = 3 ∧
    CaseResult.ToUint8 ResultFailed < CaseResult.ToUint8 ResultBasic ∧
    CaseResult.ToUint8 ResultBasic < CaseResult.ToUint8 ResultIntermediate ∧
    CaseResult.ToUint8 ResultIntermediate < CaseResult.ToUint8 ResultAdvanced ∧
    (∀ a b : CaseResult, a < b ↔ CaseResult.ToUint8 a < CaseResult.ToUint8 b) := by
  refine ⟨by decide, by decide, by decide, rfl, rfl, rfl, rfl, by decide, by decide,
    by decide, fun a b => Iff.rfl⟩

/-- Counterexample to C16 as stated: 4 is a value of `CaseResult`, its `ToUint8` is
above 3 and it is none of the four tiers. -/
theorem C16_counterexample :
    ¬ (CaseResult.ToUint8 (4 : CaseResult)).val ≤ 3 ∧
    (4 : CaseResult) ≠ ResultFailed ∧ (4 : CaseResult) ≠ ResultBasic ∧
    (4 : CaseResult) ≠ ResultIntermediate ∧ (4 : CaseResult) ≠ ResultAdvanced := by
  decide

/-- C16, amended: a value `r` of `CaseResult` is one of the four tiers exactly when
`r.ToUint8() <= 3`; as an unsigned 8-bit integer every value satisfies
`r.ToUint8() <= 255`. -/
theorem C16_four_tiers_are_values_up_to_three (r : CaseResult) :
    ((CaseResult.ToUint8 r).val ≤ 3 ↔
      (r = ResultFailed ∨ r = ResultBasic ∨ r = ResultIntermediate ∨ r = ResultAdvanced)) ∧
    (CaseResult.ToUint8 r).val ≤ 255 := by
  refine ⟨⟨fun h => ?_, fun h => ?_⟩, by have := r.isLt; simp only [CaseResult.ToUint8]; omega⟩
  · simp only [CaseResult.ToUint8] at h
    have h0 : r.val = 0 ∨ r.val = 1 ∨ r.val = 2 ∨ r.val = 3 := by omega
    rcases h0 with h0 | h0 | h0 | h0
    · exact Or.inl (Fin.ext h0)
    · exact Or.inr (Or.inl (Fin.ext h0))
    · exact Or.inr (Or.inr (Or.inl (Fin.ext h0)))
    · exact Or.inr (Or.inr (Or.inr (Fin.ext h0)))
  · rcases h with h | h | h | h <;> subst h <;> decide

/-- C17: the zero value of `CaseResult` is `ResultFailed`, and so is the `Result`
field of the zero value of `ExamineCaseResult`: a case that was never examined and a
case that did not pass are the same state. -/
theorem C17_zero_value_is_failed :
    (0 : CaseResult) = ResultFailed ∧
    ExamineCaseResult.zero.Result = ResultFailed ∧
    (CaseResult.ToUint8 ExamineCaseResult.zero.Result).val = 0 := by
  decide

/-- C11: for every request that the chain of `InitModule` handles successfully, the
tokens and the amount of the response returned to the caller are those of the
response of the provider adapter.  Layer by layer: whenever the handler built by the
log, configuration, credit, record or business builder over any handler `next`
succeeds, `next` has succeeded with a response of the same tokens and amount. -/
theorem C11_tokens_amount_unchanged (rules : ExamineRules) (zh : zhipu.Handler)
    (db : gorm.DB) (creditSvc : credit.Module) :
    (∀ (req : Request) (w w1 : World) (resp : Response),
      (InitModule rules zh db creditSvc).1.Svc.facade.Handle req w = (Except.ok resp, w1) →
      ∃ (cfg : Config) (given : Response),
        db.configs req.biz = some cfg ∧
        (zh.Handle (providerRequest rules cfg req) (beforeProvider req w)).1 =
          Except.ok given ∧
        resp.tokens = given.tokens ∧ resp.amount = given.amount) ∧
    (∀ (b : log.HandlerBuilder) (next : handler.Handler) (req : Request) (w w1 : World)
        (resp : Response), (b.Next next).Handle req w = (Except.ok resp, w1) →
      ∃ (req2 : Request) (w2 : World) (given : Response),
        (next.Handle req2 w2).1 = Except.ok given ∧
        resp.tokens = given.tokens ∧ resp.amount = given.amount) ∧
    (∀ (b : config.HandlerBuilder) (next : handler.Handler) (req : Request) (w w1 : World)
        (resp : Response), (b.Next next).Handle req w = (Except.ok resp, w1) →
      ∃ (req2 : Request) (w2 : World) (given : Response),
        (next.Handle req2 w2).1 = Except.ok given ∧
        resp.tokens = given.tokens ∧ resp.amount = given.amount) ∧
    (∀ (b : credit.HandlerBuilder) (next : handler.Handler) (req : Request) (w w1 : World)
        (resp : Response), (b.Next next).Handle req w = (Except.ok resp, w1) →
      ∃ (req2 : Request) (w2 : World) (given : Response),
        (next.Handle req2 w2).1 = Except.ok given ∧
        resp.tokens = given.tokens ∧ resp.amount = given.amount) ∧
    (∀ (b : record.HandlerBuilder) (next : handler.Handler) (req : Request) (w w1 : World)
        (resp : Response), (b.Next next).Handle req w = (Except.ok resp, w1) →
      ∃ (req2 : Request) (w2 : World) (given : Response),
        (next.Handle req2 w2).1 = Except.ok given ∧
        resp.tokens = given.tokens ∧ resp.amount = given.amount) ∧
    (∀ (b : QuestionExamineBizHandlerBuilder) (next : handler.Handler) (req : Request)
        (w w1 : World) (resp : Response),
        (b.Next next).Handle req w = (Except.ok resp, w1) →
      ∃ (req2 : Request) (w2 : World) (given : Response),
        (next.Handle req2 w2).1 = Except.ok given ∧
        resp.tokens = given.tokens ∧ resp.amount = given.amount) := by
  refine ⟨fun req w w1 resp h => ?_, fun b next req w w1 resp h => ?_,
    fun b next req w w1 resp h => ?_, fun b next req w w1 resp h => ?_,
    fun b next req w w1 resp h => ?_, fun b next req w w1 resp h => ?_⟩
  · have hf : (InitModule rules zh db creditSvc).1.Svc.facade =
        InitHandlerFacade rules
          (InitCommonHandlers log.NewHandler
            (config.NewBuilder (repository.NewCachedConfigRepository (dao.NewGORMConfigDAO db)))
            (credit.NewHandlerBuilder creditSvc.Svc
              (repository.NewLLMCreditLogRepo (InitLLMCreditLogDAO db)))
            (record.NewHandler (repository.NewLLMLogRepo (dao.NewGORMLLMLogDAO db))))
          zh := rfl
    rw [hf] at h
    by_cases hb : req.biz = "question_examine"
    swap
    · rw [facade_unknown rules zh _ req w hb] at h
      simp at h
    rw [facade_dispatch rules zh _ req w hb] at h
    cases hc : db.configs req.biz with
    | none =>
      rw [chain_config_missing rules _ _ _ _ zh req w hc] at h
      simp at h
    | some cfg =>
      cases hp : zh.backend (beforeProvider req w) (providerRequest rules cfg req) with
      | error d =>
        rw [chain_provider_error rules _ _ _ _ zh req w cfg d hc hp] at h
        simp at h
      | ok out =>
        obtain ⟨text, tokens, tid⟩ := out
        cases hd : creditSvc.Svc.Debit
            (recordedWorld
              (record.NewHandler (repository.NewLLMLogRepo (dao.NewGORMLLMLogDAO db))) req
              (providerRequest rules cfg req)
              (examinedResponse rules zh (providerRequest rules cfg req) text tokens tid) w)
            req.uid (tokens * zh.priceFor (providerRequest rules cfg req)) req.cid with
        | false =>
          rw [chain_debit_failed rules _ _ _ _ zh req w cfg text tid tokens hc hp hd] at h
          simp at h
        | true =>
          rw [chain_debit_ok rules _ _ _ _ zh req w cfg text tid tokens hc hp hd] at h
          obtain ⟨hr, _⟩ := Prod.mk.inj h
          have hresp : examinedResponse rules zh (providerRequest rules cfg req) text tokens
              tid = resp := by
            simpa using hr
          subst hresp
          refine ⟨cfg, ⟨Output.text text, tokens,
            tokens * zh.priceFor (providerRequest rules cfg req), tid⟩, rfl, ?_, rfl, rfl⟩
          simp [zhipu.Handler.Handle, hp]
  · refine ⟨req, w, resp, ?_, rfl, rfl⟩
    simp only [log.HandlerBuilder.Next] at h
    exact (Prod.mk.inj h).1
  · simp only [config.HandlerBuilder.Next] at h
    cases hc : b.repo.GetConfig req.biz with
    | none =>
      rw [hc] at h
      simp at h
    | some c =>
      rw [hc] at h
      refine ⟨{ req with config := some c }, w ++ [Event.getConfig req.biz true], resp,
        ?_, rfl, rfl⟩
      exact congrArg Prod.fst h
  · simp only [credit.HandlerBuilder.Next] at h
    rcases hn : next.Handle req w with ⟨res, w2⟩
    rw [hn] at h
    cases res with
    | error e => simp at h
    | ok given =>
      refine ⟨req, w, given, by rw [hn], ?_, ?_⟩
      all_goals
        by_cases hd : b.svc.Debit w2 req.uid given.amount req.cid = true
        · simp [hd] at h
          rw [h.1]
        · simp [hd] at h
  · simp only [record.HandlerBuilder.Next] at h
    rcases hn : next.Handle req w with ⟨res, w2⟩
    rw [hn] at h
    cases res with
    | error e => simp at h
    | ok given =>
      simp at h
      refine ⟨req, w, given, by rw [hn], by rw [h.1], by rw [h.1]⟩
  · simp only [QuestionExamineBizHandlerBuilder.Next] at h
    rcases hn : next.Handle { req with prompt := b.rules.prompt req.input }
        (w ++ [Event.examine req.cid]) with ⟨res, w2⟩
    rw [hn] at h
    cases res with
    | error e => simp at h
    | ok given =>
      simp at h
      refine ⟨{ req with prompt := b.rules.prompt req.input }, w ++ [Event.examine req.cid],
        given, by rw [hn], by rw [← h.1], by rw [← h.1]⟩

/-- Witness of C11: the example request succeeds with tokens 120 and amount 240, the
figures of the response of the example adapter. -/
theorem C11_tokens_amount_unchanged_witness :
    (InitModule Example.rules Example.zhipuOk Example.dbOk
        Example.creditOk).1.Svc.facade.Handle Example.req [] =
      (Except.ok Example.resp,
        [Event.getConfig "question_examine" true, Event.examine 42,
          Event.provider (providerRequest Example.rules Example.cfg Example.req) true,
          Event.append Example.usage true, Event.debit 7 240 42 true,
          Event.observe "question_examine" true]) ∧
    ∃ given : Response, Example.resp.tokens = given.tokens ∧
      Example.resp.amount = given.amount :=
  ⟨by decide,
   match (C11_tokens_amount_unchanged Example.rules Example.zhipuOk Example.dbOk
      Example.creditOk).1 Example.req []
      [Event.getConfig "question_examine" true, Event.examine 42,
        Event.provider (providerRequest Example.rules Example.cfg Example.req) true,
        Event.append Example.usage true, Event.debit 7 240 42 true,
        Event.observe "question_examine" true]
      Example.resp (by decide) with
   | ⟨_, given, _, _, ht, ha⟩ => ⟨given, ht, ha⟩⟩

/-- C21: when the mark-used step of the repository succeeds with the redemption
code `r` and a redeemer is registered for `r.SPUType`, `RedeemRedemptionCode` is the
one call of that redeemer on `RedeemInfo{RedeemerID: uid, Code: r}` in the state the
repository left, and returns its result unchanged. -/
theorem C21_redeem_calls_registered_redeemer {σ : Type} (s : marketing.service σ)
    (uid : Int) (code : String) (st st1 : σ) (r : marketing.RedemptionCode)
    (redeemer : marketing.RedeemerHandler σ)
    (hrepo : s.repo.SetUnusedRedemptionCodeStatusUsed uid code st = ((r, none), st1))
    (hreg : s.redeemers.lookup r.SPUType = some redeemer) :
    s.RedeemRedemptionCode uid code st = redeemer.Redeem ⟨uid, r⟩ st1 := by
  simp [marketing.service.RedeemRedemptionCode, hrepo, hreg]

/-- Witness of C21: with the repository that yields a "member" code and the service
of `NewService`, the member redeemer is called once, after the mark-used step. -/
theorem C21_redeem_calls_registered_redeemer_witness :
    (marketing.NewService Sample.repoOk (fun _ => Sample.memberHandler)).RedeemRedemptionCode
        7 "code-1" [] =
      Sample.memberHandler.Redeem ⟨7, Sample.memberCode⟩ ["SetUsed"] ∧
    Sample.memberHandler.Redeem ⟨7, Sample.memberCode⟩ ["SetUsed"] =
      (none, ["SetUsed", "Redeem code-1"]) :=
  ⟨C21_redeem_calls_registered_redeemer
      (marketing.NewService Sample.repoOk (fun _ => Sample.memberHandler)) 7 "code-1" []
      ["SetUsed"] Sample.memberCode Sample.memberHandler rfl rfl,
   by decide⟩

/-- C22: when `SetUnusedRedemptionCodeStatusUsed` returns an error,
`RedeemRedemptionCode` returns exactly that error in the state the repository left,
whatever redeemers are registered: no redeemer is called. -/
theorem C22_mark_used_error_returned {σ : Type} (s : marketing.service σ)
    (uid : Int) (code : String) (st st1 : σ) (r : marketing.RedemptionCode) (err : GoError)
    (hrepo : s.repo.SetUnusedRedemptionCodeStatusUsed uid code st = ((r, some err), st1)) :
    s.RedeemRedemptionCode uid code st = (some err, st1) ∧
    (∀ redeemers : List (String × marketing.RedeemerHandler σ),
      marketing.service.RedeemRedemptionCode ⟨s.repo, redeemers⟩ uid code st =
        (some err, st1)) := by
  constructor
  · simp [marketing.service.RedeemRedemptionCode, hrepo]
  · intro redeemers
    simp [marketing.service.RedeemRedemptionCode, hrepo]

/-- Witness of C22: with a repository whose code has been used already, the service
returns `ErrRedemptionCodeUsed` and only the mark-used call is logged. -/
theorem C22_mark_used_error_returned_witness :
    (marketing.NewService Sample.repoUsed (fun _ => Sample.memberHandler)).RedeemRedemptionCode
        7 "code-1" [] =
      (some marketing.ErrRedemptionCodeUsed, ["SetUsed"]) :=
  (C22_mark_used_error_returned
    (marketing.NewService Sample.repoUsed (fun _ => Sample.memberHandler)) 7 "code-1" []
    ["SetUsed"] ⟨"", ""⟩ marketing.ErrRedemptionCodeUsed rfl).1

/-- C23: the service built by `NewService` registers the single redeemer key
"member".  When the mark-used step succeeds with a code whose SPU type is not
"member", `RedeemRedemptionCode` returns the unknown-SPU-type error and the state is
the one the mark-used step left: no redeemer is called and no further repository
call is made, so the code stays marked as used. -/
theorem C23_unknown_spu_type_after_mark_used {σ : Type}
    (repo : marketing.MarketingRepository σ)
    (newCodeMemberHandler : marketing.MarketingRepository σ → marketing.RedeemerHandler σ)
    (uid : Int) (code : String) (st st1 : σ) (r : marketing.RedemptionCode)
    (hrepo : repo.SetUnusedRedemptionCodeStatusUsed uid code st = ((r, none), st1))
    (hne : r.SPUType ≠ "member") :
    (marketing.NewService repo newCodeMemberHandler).redeemers.map Prod.fst = ["member"] ∧
    (marketing.NewService repo newCodeMemberHandler).RedeemRedemptionCode uid code st =
      (some (GoError.errorf ("未知兑换码SPU类型: " ++ r.SPUType)), st1) := by
  have hb : (r.SPUType == "member") = false := by simpa using hne
  constructor
  · rfl
  · simp [marketing.service.RedeemRedemptionCode, marketing.NewService, hrepo, List.lookup, hb]

/-- Witness of C23: with the repository that yields a "product" code, the service of
`NewService` fails with the unknown-SPU-type error after the mark-used call, and the
redeemer is not called. -/
theorem C23_unknown_spu_type_after_mark_used_witness :
    Sample.productCode.SPUType ≠ "member" ∧
    (marketing.NewService Sample.repoProduct
        (fun _ => Sample.memberHandler)).RedeemRedemptionCode 7 "code-2" [] =
      (some (GoError.errorf ("未知兑换码SPU类型: " ++ "product")), ["SetUsed"]) :=
  ⟨by decide,
   (C23_unknown_spu_type_after_mark_used Sample.repoProduct (fun _ => Sample.memberHandler)
      7 "code-2" [] ["SetUsed"] Sample.productCode rfl (by decide)).2⟩

/-- The group reports no error exactly when both tasks returned none. -/
theorem errgroupWait_eq_none (b : Bool) (e1 e2 : Option GoError) :
    marketing.errgroupWait b e1 e2 = none ↔ e1 = none ∧ e2 = none := by
  cases e1 <;> cases e2 <;> cases b <;> simp [marketing.errgroupWait]

/-- An error reported by the group is the error of one of the two tasks. -/
theorem errgroupWait_eq_some (b : Bool) (e1 e2 : Option GoError) (e : GoError)
    (h : marketing.errgroupWait b e1 e2 = some e) : e1 = some e ∨ e2 = some e := by
  cases e1 <;> cases e2 <;> cases b <;> simp_all [marketing.errgroupWait]

/-- C24: under every order of the two tasks and every order in which their errors
are recorded, `ListRedemptionCodes` makes the call `FindRedemptionCodesByUID` and the
call `TotalRedemptionCodes` once each (the final state is the state after these two
calls), returns the code list and the total that the two calls produced, returns a
nil error exactly when both calls returned a nil error, and otherwise returns the
error of one of the calls that failed. -/
theorem C24_list_redemption_codes {σ : Type} (s : marketing.service σ)
    (findRunsFirst findRecordedFirst : Bool) (uid offset list : Int) (st : σ) :
    (s.ListRedemptionCodes findRunsFirst findRecordedFirst uid offset list st).1.1 =
      (s.findOutcome findRunsFirst uid offset list st).1.1 ∧
    (s.ListRedemptionCodes findRunsFirst findRecordedFirst uid offset list st).1.2.1 =
      (s.totalOutcome findRunsFirst uid offset list st).1.1 ∧
    ((s.ListRedemptionCodes findRunsFirst findRecordedFirst uid offset list st).1.2.2 = none ↔
      (s.findOutcome findRunsFirst uid offset list st).1.2 = none ∧
      (s.totalOutcome findRunsFirst uid offset list st).1.2 = none) ∧
    (∀ e : GoError,
      (s.ListRedemptionCodes findRunsFirst findRecordedFirst uid offset list st).1.2.2 =
        some e →
      (s.findOutcome findRunsFirst uid offset list st).1.2 = some e ∨
      (s.totalOutcome findRunsFirst uid offset list st).1.2 = some e) ∧
    (s.ListRedemptionCodes findRunsFirst findRecordedFirst uid offset list st).2 =
      (if findRunsFirst then (s.totalOutcome findRunsFirst uid offset list st).2
        else (s.findOutcome findRunsFirst uid offset list st).2) := by
  cases findRunsFirst
  · refine ⟨rfl, rfl, ?_, fun e h => ?_, rfl⟩
    · simp only [marketing.service.ListRedemptionCodes, marketing.service.findOutcome,
        marketing.service.totalOutcome]
      exact errgroupWait_eq_none _ _ _
    · simp only [marketing.service.ListRedemptionCodes, marketing.service.findOutcome,
        marketing.service.totalOutcome] at h ⊢
      exact errgroupWait_eq_some _ _ _ e h
  · refine ⟨rfl, rfl, ?_, fun e h => ?_, rfl⟩
    · simp only [marketing.service.ListRedemptionCodes, marketing.service.findOutcome,
        marketing.service.totalOutcome]
      exact errgroupWait_eq_none _ _ _
    · simp only [marketing.service.ListRedemptionCodes, marketing.service.findOutcome,
        marketing.service.totalOutcome] at h ⊢
      exact errgroupWait_eq_some _ _ _ e h

/-- Witness of C24: with a repository whose two queries fail, the error returned is
the error of the query recorded first, and both calls are logged once. -/
theorem C24_list_redemption_codes_witness :
    (marketing.service.ListRedemptionCodes
        (marketing.NewService Sample.repoUsed (fun _ => Sample.memberHandler))
        true false 7 0 10 []) =
      (([], 0, some (GoError.sentinel "total failed")), ["Find", "Total"]) ∧
    ((marketing.service.findOutcome
        (marketing.NewService Sample.repoUsed (fun _ => Sample.memberHandler))
        true 7 0 10 []).1.2 = some (GoError.sentinel "total failed") ∨
     (marketing.service.totalOutcome
        (marketing.NewService Sample.repoUsed (fun _ => Sample.memberHandler))
        true 7 0 10 []).1.2 = some (GoError.sentinel "total failed")) :=
  ⟨by decide,
   (C24_list_redemption_codes
      (marketing.NewService Sample.repoUsed (fun _ => Sample.memberHandler))
      true false 7 0 10 []).2.2.2.1 (GoError.sentinel "total failed") (by decide)⟩

/-- C25: when the product service returns an SPU, the response of
`RetrieveSPUDetail` carries its SN, Name and Desc, and its SKUs are the images under
`toSKU` of the SKUs of the SPU, in the same number and order; `toSKU` copies SN,
Name, Desc, Price, Stock, StockLimit, Attrs and Image and sets SaleType to the
`ToUint8` value of the sale type. -/
theorem C25_spu_detail_maps_skus {ST : Type} (h : product.Handler ST) (req : product.SNReq)
    (spu : product.DomainSPU ST) (hsvc : h.svc.FindSPUBySN req.SN = (spu, none)) :
    (h.RetrieveSPUDetail req).1.Data =
      product.Data.spu ⟨spu.SN, spu.Name, spu.Desc, spu.SKUs.map h.toSKU⟩ ∧
    (spu.SKUs.map h.toSKU).length = spu.SKUs.length ∧
    (∀ i : Nat, (spu.SKUs.map h.toSKU)[i]? = (spu.SKUs[i]?).map h.toSKU) ∧
    (∀ sku : product.DomainSKU ST,
      (h.toSKU sku).SN = sku.SN ∧ (h.toSKU sku).Name = sku.Name ∧
      (h.toSKU sku).Desc = sku.Desc ∧ (h.toSKU sku).Price = sku.Price ∧
      (h.toSKU sku).Stock = sku.Stock ∧ (h.toSKU sku).StockLimit = sku.StockLimit ∧
      (h.toSKU sku).Attrs = sku.Attrs ∧ (h.toSKU sku).Image = sku.Image ∧
      (h.toSKU sku).SaleType = h.ToUint8 sku.SaleType) := by
  refine ⟨?_, by simp, fun i => by simp, fun sku => ⟨rfl, rfl, rfl, rfl, rfl, rfl, rfl, rfl, rfl⟩⟩
  simp [product.Handler.RetrieveSPUDetail, hsvc]

/-- Witness of C25: the example handler answers the request for `spu-1` with the two
mapped SKUs. -/
theorem C25_spu_detail_maps_skus_witness :
    Sample.productHandler.svc.FindSPUBySN "spu-1" = (Sample.domainSPU, none) ∧
    (Sample.productHandler.RetrieveSPUDetail ⟨"spu-1"⟩).1.Data =
      product.Data.spu ⟨"spu-1", "member", "membership",
        Sample.domainSPU.SKUs.map Sample.productHandler.toSKU⟩ :=
  ⟨rfl, (C25_spu_detail_maps_skus Sample.productHandler ⟨"spu-1"⟩ Sample.domainSPU rfl).1⟩

/-- C26: `RetrieveSPUDetail` and `RetrieveSKUDetail` return a non-nil error exactly
when the lookup of the product service returns one; they then return
`systemErrorResult` and that same error; otherwise the error is nil and the result
carries the mapped SPU or SKU. -/
theorem C26_detail_error_iff_lookup_fails {ST : Type} (h : product.Handler ST)
    (req : product.SNReq) :
    ((h.RetrieveSPUDetail req).2 ≠ none ↔ (h.svc.FindSPUBySN req.SN).2 ≠ none) ∧
    (∀ err : GoError, (h.svc.FindSPUBySN req.SN).2 = some err →
      h.RetrieveSPUDetail req = (h.systemErrorResult, some err)) ∧
    ((h.svc.FindSPUBySN req.SN).2 = none →
      h.RetrieveSPUDetail req =
        (⟨0, "", product.Data.spu
            ⟨(h.svc.FindSPUBySN req.SN).1.SN, (h.svc.FindSPUBySN req.SN).1.Name,
              (h.svc.FindSPUBySN req.SN).1.Desc,
              (h.svc.FindSPUBySN req.SN).1.SKUs.map h.toSKU⟩⟩, none)) ∧
    ((h.RetrieveSKUDetail req).2 ≠ none ↔ (h.svc.FindSKUBySN req.SN).2 ≠ none) ∧
    (∀ err : GoError, (h.svc.FindSKUBySN req.SN).2 = some err →
      h.RetrieveSKUDetail req = (h.systemErrorResult, some err)) ∧
    ((h.svc.FindSKUBySN req.SN).2 = none →
      h.RetrieveSKUDetail req =
        (⟨0, "", product.Data.sku (h.toSKU (h.svc.FindSKUBySN req.SN).1)⟩, none)) := by
  refine ⟨?_, ?_, ?_, ?_, ?_, ?_⟩
  · rcases hsvc : h.svc.FindSPUBySN req.SN with ⟨spu, _ | err⟩ <;>
      simp [product.Handler.RetrieveSPUDetail, hsvc]
  · intro err he
    rcases hsvc : h.svc.FindSPUBySN req.SN with ⟨spu, e⟩
    rw [hsvc] at he
    simp only at he
    subst he
    simp [product.Handler.RetrieveSPUDetail, hsvc]
  · intro he
    rcases hsvc : h.svc.FindSPUBySN req.SN with ⟨spu, e⟩
    rw [hsvc] at he
    simp only at he
    subst he
    simp [product.Handler.RetrieveSPUDetail, hsvc]
  · rcases hsvc : h.svc.FindSKUBySN req.SN with ⟨sku, _ | err⟩ <;>
      simp [product.Handler.RetrieveSKUDetail, hsvc]
  · intro err he
    rcases hsvc : h.svc.FindSKUBySN req.SN with ⟨sku, e⟩
    rw [hsvc] at he
    simp only at he
    subst he
    simp [product.Handler.RetrieveSKUDetail, hsvc]
  · intro he
    rcases hsvc : h.svc.FindSKUBySN req.SN with ⟨sku, e⟩
    rw [hsvc] at he
    simp only at he
    subst he
    simp [product.Handler.RetrieveSKUDetail, hsvc]

/-- Witness of C26: the example handler answers an unknown SN with the system error
result and the error of the service. -/
theorem C26_detail_error_iff_lookup_fails_witness :
    (Sample.productHandler.svc.FindSKUBySN "nope").2 = some (GoError.sentinel "not found") ∧
    Sample.productHandler.RetrieveSKUDetail ⟨"nope"⟩ =
      (Sample.systemErrorResult, some (GoError.sentinel "not found")) :=
  ⟨by decide,
   (C26_detail_error_iff_lookup_fails Sample.productHandler ⟨"nope"⟩).2.2.2.2.1
      (GoError.sentinel "not found") (by decide)⟩

/-- Once `once` is done, every further sequence of `initService` calls returns the
stored service and leaves the package variables as they are. -/
theorem initServiceSeq_done {DB : Type} (dbs : List DB) (g : order.Globals DB)
    (hg : g.onceDone = true) :
    order.initServiceSeq dbs g = (List.replicate dbs.length g.svc, g) := by
  induction dbs with
  | nil => rfl
  | cons db dbs ih =>
    have h1 : order.initService db g = (g.svc, g) := by
      simp [order.initService, hg]
    simp [order.initServiceSeq, h1, ih, List.replicate_succ]

/-- C27: over every sequence of `initService` calls from program start, with any
database handles, the service is constructed exactly once, from the handle of the
first call; every call returns that same service, and the handles of the later calls
are not used. -/
theorem C27_init_service_singleton {DB : Type} (db : DB) (dbs : List DB) :
    (order.initServiceSeq (db :: dbs) order.Globals.start).1 =
      List.replicate (dbs.length + 1) (some ⟨⟨⟨db⟩⟩⟩) ∧
    (order.initServiceSeq (db :: dbs) order.Globals.start).2.constructed = [db] ∧
    (order.initServiceSeq (db :: dbs) order.Globals.start).2.svc = some ⟨⟨⟨db⟩⟩⟩ ∧
    (order.initServiceSeq (db :: dbs) order.Globals.start).2.onceDone = true ∧
    (∀ other : List DB,
      (order.initServiceSeq (db :: other) order.Globals.start).2 =
        (order.initServiceSeq (db :: dbs) order.Globals.start).2) := by
  have h1 : order.initService db (order.Globals.start : order.Globals DB) =
      (some ⟨⟨⟨db⟩⟩⟩, ⟨true, some ⟨⟨⟨db⟩⟩⟩, [db]⟩) := by
    simp [order.initService, order.Globals.start]
  have hseq : ∀ l : List DB, order.initServiceSeq (db :: l) order.Globals.start =
      (List.replicate (l.length + 1) (some ⟨⟨⟨db⟩⟩⟩), ⟨true, some ⟨⟨⟨db⟩⟩⟩, [db]⟩) := by
    intro l
    simp [order.initServiceSeq, h1, initServiceSeq_done, List.replicate_succ]
  refine ⟨?_, ?_, ?_, ?_, fun other => ?_⟩ <;> simp [hseq]

/-- C28: `ToUint8` is a lossless encoding of `CaseResult`: converting the encoded
value back gives the value, so `ToUint8` is injective, and the four tiers have four
different encoded values. -/
theorem C28_to_uint8_lossless :
    (∀ r : CaseResult, CaseResult.ofUint8 (CaseResult.ToUint8 r) = r) ∧
    (∀ u : Fin 256, CaseResult.ToUint8 (CaseResult.ofUint8 u) = u) ∧
    Function.Injective CaseResult.ToUint8 ∧
    [CaseResult.ToUint8 ResultFailed, CaseResult.ToUint8 ResultBasic,
      CaseResult.ToUint8 ResultIntermediate, CaseResult.ToUint8 ResultAdvanced].Nodup := by
  refine ⟨fun _ => rfl, fun _ => rfl, fun a b h => h, by decide⟩

/-- Counterexample to C29 as stated: for the odd id -1 neither `Liked` nor
`Collected` is true, and for the largest `int64` id the view count is not id + 1. -/
theorem C29_counterexample :
    (-1 : Int) % 2 = 1 ∧
    (mockInteractive "question" (-1)).Liked = false ∧
    (mockInteractive "question" (-1)).Collected = false ∧
    (mockInteractive "question" (2 ^ 63 - 1)).ViewCnt = -2 ^ 63 ∧
    (mockInteractive "question" (2 ^ 63 - 1)).ViewCnt ≠ (2 ^ 63 - 1) + 1 := by
  decide

/-- C29, amended: for every `int64` id, `Collected` is true exactly when id is even;
`Liked` is true only when id is odd, and for every id that is not negative exactly
when id is odd, so that exactly one of the two is true for every id that is not
negative or is even.  `ViewCnt`, `LikeCnt` and `CollectCnt` are id + 1, id + 2 and
id + 3 whenever that sum does not exceed the largest `int64`, and that sum less 2^64
otherwise.  `Biz` and `BizId` echo the arguments.  Whether a negative odd id is
liked is left open here. -/
theorem C29_mock_interactive_rule (biz : String) (id : Int)
    (hlo : -2 ^ 63 ≤ id) (hhi : id < 2 ^ 63) :
    ((mockInteractive biz id).Collected = true ↔ id % 2 = 0) ∧
    ((mockInteractive biz id).Liked = true → id % 2 = 1) ∧
    (0 ≤ id → id % 2 = 1 → (mockInteractive biz id).Liked = true) ∧
    (0 ≤ id ∨ id % 2 = 0 →
      (mockInteractive biz id).Liked = !(mockInteractive biz id).Collected) ∧
    (mockInteractive biz id).ViewCnt =
      (if id + 1 < 2 ^ 63 then id + 1 else id + 1 - 2 ^ 64) ∧
    (mockInteractive biz id).LikeCnt =
      (if id + 2 < 2 ^ 63 then id + 2 else id + 2 - 2 ^ 64) ∧
    (mockInteractive biz id).CollectCnt =
      (if id + 3 < 2 ^ 63 then id + 3 else id + 3 - 2 ^ 64) ∧
    (mockInteractive biz id).Biz = biz ∧ (mockInteractive biz id).BizId = id := by
  have hl : (mockInteractive biz id).Liked = decide (Int.tmod id 2 = 1) := rfl
  have hc : (mockInteractive biz id).Collected = decide (Int.tmod id 2 = 0) := rfl
  have ht : (0 ≤ id ∧ Int.tmod id 2 = id % 2) ∨ (id < 0 ∧ Int.tmod id 2 = -((-id) % 2)) := by
    rcases lt_or_le id 0 with hneg | hpos
    · right
      refine ⟨hneg, ?_⟩
      obtain ⟨k, rfl⟩ : ∃ k : Nat, id = Int.negSucc k := by
        cases id with
        | ofNat n => exact absurd hneg (by simp)
        | negSucc k => exact ⟨k, rfl⟩
      have h : Int.tmod (Int.negSucc k) 2 = -Int.ofNat (Nat.succ k % 2) := rfl
      rw [h, Int.neg_negSucc]
      simp
    · exact Or.inl ⟨hpos, Int.tmod_eq_emod hpos (by decide)⟩
  have hcol : (mockInteractive biz id).Collected = true ↔ id % 2 = 0 := by
    rw [hc, decide_eq_true_iff]
    rcases ht with ⟨h0, h⟩ | ⟨h0, h⟩
    · rw [h]
    · rw [h]
      omega
  have hodd : (mockInteractive biz id).Liked = true → id % 2 = 1 := by
    rw [hl, decide_eq_true_iff]
    rcases ht with ⟨h0, h⟩ | ⟨h0, h⟩
    · rw [h]
      exact fun hh => hh
    · rw [h]
      omega
  have hpos : 0 ≤ id → id % 2 = 1 → (mockInteractive biz id).Liked = true := by
    intro h0 h1
    rw [hl, decide_eq_true_iff]
    rcases ht with ⟨_, h⟩ | ⟨hneg, _⟩
    · rw [h]
      exact h1
    · omega
  refine ⟨hcol, hodd, hpos, ?_, ?_, ?_, ?_, rfl, rfl⟩
  · intro hcase
    cases hL : (mockInteractive biz id).Liked <;> cases hC : (mockInteractive biz id).Collected
    · have h1 : ¬ id % 2 = 0 := fun h => by
        have := hcol.mpr h
        rw [hC] at this
        exact Bool.noConfusion this
      have h2 : 0 ≤ id := by omega
      have h3 : id % 2 = 1 := by omega
      have := hpos h2 h3
      rw [hL] at this
      exact Bool.noConfusion this
    · rfl
    · rfl
    · have h1 := hodd hL
      have h2 := hcol.mp hC
      omega
  · simp only [mockInteractive, wrapInt64]
    split_ifs <;> omega
  · simp only [mockInteractive, wrapInt64]
    split_ifs <;> omega
  · simp only [mockInteractive, wrapInt64]
    split_ifs <;> omega

/-- Witness of C29: for id 99 the fixture gives `Liked`, not `Collected`, and the
view count 100. -/
theorem C29_mock_interactive_rule_witness :
    (-2 ^ 63 : Int) ≤ 99 ∧ (99 : Int) < 2 ^ 63 ∧
    (mockInteractive "question" 99).Liked = !(mockInteractive "question" 99).Collected ∧
    (mockInteractive "question" 99).ViewCnt =
      (if (99 : Int) + 1 < 2 ^ 63 then 99 + 1 else 99 + 1 - 2 ^ 64) :=
  ⟨by decide, by decide,
   (C29_mock_interactive_rule "question" 99 (by decide) (by decide)).2.2.2.1
      (Or.inl (by decide)),
   (C29_mock_interactive_rule "question" 99 (by decide) (by decide)).2.2.2.2.1⟩

end Webook
